import Mathlib

/-!
Shallow embedding of the firepilot microVM orchestration core
(builder validation, executor lifecycle, machine sequencer),
translated from the Rust sources, together with theorems about it.

Filesystem, process and socket effects are modelled by an explicit
`World` state threaded through the operations, with an `Env` record
supplying the outcomes of external events (process spawn success,
socket-file appearance at each health poll, response status of each
request in issue order, kill success, directory-creation faults).
Paths are strings; `PathBuf::join` with a relative component is string
concatenation with a `/` separator.
-/

namespace Firepilot

/-- `PathBuf::join` with a relative right component. -/
def pathJoin (a b : String) : String := a ++ "/" ++ b

/- ----------------------------------------------------------------
   Data model (crate `firepilot_models`): plain data structs, fields
   as used by the builder and executor sources.
   ---------------------------------------------------------------- -/

/-- Rate limiter from the models crate; its fields are never inspected
by the core, so it is an abstract token here. -/
structure RateLimiter where
  token : Unit := ()
deriving DecidableEq, Repr

structure BootSource where
  kernel_image_path : String
  initrd_path : Option String
  boot_args : Option String
deriving DecidableEq, Repr

structure Drive where
  drive_id : String
  path_on_host : String
  is_root_device : Bool
  is_read_only : Bool
  cache_type : Option String := none
  partuuid : Option String := none
  rate_limiter : Option RateLimiter := none
  io_engine : Option String := none
deriving DecidableEq, Repr

structure NetworkInterface where
  guest_mac : Option String
  host_dev_name : String
  iface_id : String
  rx_rate_limiter : Option RateLimiter := none
  tx_rate_limiter : Option RateLimiter := none
deriving DecidableEq, Repr

structure Vsock where
  guest_cid : Int
  uds_path : String
  vsock_id : Option String
deriving DecidableEq, Repr

/- ----------------------------------------------------------------
   Builder layer (src builder modules)
   ---------------------------------------------------------------- -/

inductive BuilderError where
  | MissingRequiredField (name : String)
  | BinaryNotFound (hint : String)
deriving DecidableEq, Repr

/-- `assert_not_none` from builder/mod.rs. -/
def assert_not_none {α : Type} (key : String) (value : Option α) :
    Except BuilderError Unit :=
  match value with
  | some _ => .ok ()
  | none => .error (.MissingRequiredField key)

structure DriveBuilder where
  drive_id : Option String
  path_on_host : Option String
  is_root_device : Bool
  is_read_only : Bool
deriving DecidableEq, Repr

def DriveBuilder.new : DriveBuilder :=
  { drive_id := none, path_on_host := none
    is_root_device := false, is_read_only := false }

def DriveBuilder.with_drive_id (b : DriveBuilder) (id : String) : DriveBuilder :=
  { b with drive_id := some id }

def DriveBuilder.with_path_on_host (b : DriveBuilder) (p : String) : DriveBuilder :=
  { b with path_on_host := some p }

def DriveBuilder.as_root_device (b : DriveBuilder) : DriveBuilder :=
  { b with is_root_device := true }

def DriveBuilder.as_read_only (b : DriveBuilder) : DriveBuilder :=
  { b with is_read_only := true }

/-- `DriveBuilder::try_build`; the `stringify!(self.drive_id)` arguments of
`assert_not_none` expand to the literal source text `"self.drive_id"` etc. -/
def DriveBuilder.try_build (b : DriveBuilder) : Except BuilderError Drive := do
  let _ ← assert_not_none "self.drive_id" b.drive_id
  let _ ← assert_not_none "self.path_on_host" b.path_on_host
  .ok { drive_id := b.drive_id.get!
        path_on_host := b.path_on_host.get!
        is_root_device := b.is_root_device
        is_read_only := b.is_read_only }

structure KernelBuilder where
  boot_args : Option String
  initrd_path : Option String
  kernel_image_path : Option String
deriving DecidableEq, Repr

def KernelBuilder.new : KernelBuilder :=
  { boot_args := none, initrd_path := none, kernel_image_path := none }

def KernelBuilder.with_boot_args (b : KernelBuilder) (a : String) : KernelBuilder :=
  { b with boot_args := some a }

def KernelBuilder.with_initrd_path (b : KernelBuilder) (p : String) : KernelBuilder :=
  { b with initrd_path := some p }

def KernelBuilder.with_kernel_image_path (b : KernelBuilder) (p : String) : KernelBuilder :=
  { b with kernel_image_path := some p }

def KernelBuilder.try_build (b : KernelBuilder) : Except BuilderError BootSource := do
  let _ ← assert_not_none "self.kernel_image_path" b.kernel_image_path
  .ok { kernel_image_path := b.kernel_image_path.get!
        initrd_path := b.initrd_path
        boot_args := b.boot_args }

structure NetworkInterfaceBuilder where
  guest_mac : Option String
  host_dev_name : Option String
  iface_id : Option String
  rx_rate_limiter : Option RateLimiter
  tx_rate_limiter : Option RateLimiter
deriving DecidableEq, Repr

def NetworkInterfaceBuilder.new : NetworkInterfaceBuilder :=
  { guest_mac := none, host_dev_name := none, iface_id := none
    rx_rate_limiter := none, tx_rate_limiter := none }

def NetworkInterfaceBuilder.try_build (b : NetworkInterfaceBuilder) :
    Except BuilderError NetworkInterface := do
  let _ ← assert_not_none "self.host_dev_name" b.host_dev_name
  let _ ← assert_not_none "self.iface_id" b.iface_id
  .ok { guest_mac := b.guest_mac
        host_dev_name := b.host_dev_name.get!
        iface_id := b.iface_id.get!
        rx_rate_limiter := b.rx_rate_limiter
        tx_rate_limiter := b.tx_rate_limiter }

structure VsockBuilder where
  guest_cid : Option Int
  uds_path : Option String
deriving DecidableEq, Repr

def VsockBuilder.new : VsockBuilder := { guest_cid := none, uds_path := none }

def VsockBuilder.try_build (b : VsockBuilder) : Except BuilderError Vsock := do
  let _ ← assert_not_none "self.guest_cid" b.guest_cid
  let _ ← assert_not_none "self.uds_path" b.uds_path
  .ok { guest_cid := b.guest_cid.get!
        uds_path := b.uds_path.get!
        vsock_id := none }

/- ----------------------------------------------------------------
   Executor builder and binary-location discovery
   (src/firepilot/src/builder/executor.rs)
   ---------------------------------------------------------------- -/

/-- Environment visible to binary discovery: the override variable,
the `PATH` variable (absent or a list of directories, as produced by
`split_paths`), and which paths currently name an existing file. -/
structure DiscoveryEnv where
  firecracker_location : Option String
  path_dirs : Option (List String)
  is_file : String → Bool

/-- `find_binary_from_env_location`: the override variable wins only
when it names an existing file; otherwise only a warning is logged and
the chain continues. -/
def find_binary_from_env_location (d : DiscoveryEnv) : Option String :=
  match d.firecracker_location with
  | some path => if d.is_file path then some path else none
  | none => none

/-- `find_binary_from_path`: first `PATH` directory containing a file
named `firecracker`. -/
def find_binary_from_path (d : DiscoveryEnv) : Option String :=
  match d.path_dirs with
  | some dirs =>
      (dirs.filterMap (fun dir =>
        let full_path := pathJoin dir "firecracker"
        if d.is_file full_path then some full_path else none)).head?
  | none => none

/-- `find_binary_from_current_directory`. -/
def find_binary_from_current_directory (d : DiscoveryEnv) : Option String :=
  if d.is_file "./firecracker" then some "./firecracker" else none

def binaryNotFoundHint : String :=
  "Check if FIRECRACKER_LOCATION environment variable is correctly set. For more information check https://docs.rs/firepilot/ "

/-- `FirecrackerExecutorBuilder::determine_binary_location`. -/
def determine_binary_location (d : DiscoveryEnv) : Except BuilderError String :=
  match (find_binary_from_env_location d).orElse
        (fun _ => (find_binary_from_path d).orElse
        (fun _ => find_binary_from_current_directory d)) with
  | some p => .ok p
  | none => .error (.BinaryNotFound binaryNotFoundHint)

structure FirecrackerExecutorBuilder where
  chroot : Option String
  exec_binary : Option String
deriving DecidableEq, Repr

def FirecrackerExecutorBuilder.new : FirecrackerExecutorBuilder :=
  { chroot := none, exec_binary := none }

def FirecrackerExecutorBuilder.with_chroot
    (b : FirecrackerExecutorBuilder) (c : String) : FirecrackerExecutorBuilder :=
  { b with chroot := some c }

def FirecrackerExecutorBuilder.with_exec_binary
    (b : FirecrackerExecutorBuilder) (p : String) : FirecrackerExecutorBuilder :=
  { b with exec_binary := some p }

/- ----------------------------------------------------------------
   Effect model: world state, external-event environment, outcomes
   ---------------------------------------------------------------- -/

/-- One request issued over the control socket: the socket path, the
resource path, and the serialized JSON body. -/
structure SockRequest where
  sock : String
  path : String
  body : String
deriving DecidableEq, Repr

/-- Observable machine state: existing directories and files, running
child processes (by pid), the log of requests issued over sockets, and
the next pid handed out on spawn. -/
structure World where
  dirs : List String
  files : List String
  processes : List Nat
  requests : List SockRequest
  nextPid : Nat
deriving DecidableEq, Repr

/-- Outcomes of external events, supplied by the surroundings:
whether `spawn` succeeds, whether the socket file is observed to exist
at health-poll attempt `n`, whether the response to the `n`-th issued
request (global issue order) has a success status, whether `kill`
succeeds, and whether directory creation hits an I/O fault. -/
structure Env where
  spawnOk : Bool
  sockExistsAt : Nat → Bool
  respOk : Nat → Bool
  killOk : Bool
  mkdirOk : Bool

/-- Result of an effectful operation over state `σ`: normal return,
an error return, or a Rust panic. -/
inductive Outcome (ε σ α : Type) where
  | ok (a : α) (s : σ)
  | err (e : ε) (s : σ)
  | panic (msg : String) (s : σ)
deriving Repr

def Outcome.bind {ε σ α β : Type} :
    Outcome ε σ α → (α → σ → Outcome ε σ β) → Outcome ε σ β
  | .ok a s, f => f a s
  | .err e s, _ => .err e s
  | .panic m s, _ => .panic m s

/- ----------------------------------------------------------------
   Executor (src/firepilot/src/executor.rs)
   ---------------------------------------------------------------- -/

inductive ExecuteError where
  | WorkspaceCreation (reason : String)
  | WorkspaceDeletion (reason : String)
  | CommandExecution (reason : String)
  | Socket (reason : String)
  | Request (uri reason : String)
  | Serialize (reason : String)
  | Unhealthy
deriving DecidableEq, Repr

inductive FirepilotError where
  | Setup (msg : String)
  | Configure (msg : String)
  | Execute (msg : String)
deriving DecidableEq, Repr

/-- `impl From<ExecuteError> for FirepilotError`. -/
def FirepilotError.ofExecuteError : ExecuteError → FirepilotError
  | .CommandExecution e => .Setup e
  | .Request url e => .Configure (url ++ ": " ++ e)
  | .Serialize e => .Configure e
  | .Socket e => .Configure e
  | .WorkspaceCreation e => .Setup e
  | .WorkspaceDeletion e => .Setup e
  | .Unhealthy => .Configure "Socket didn't start on time"

inductive Action where
  | InstanceStart
  | SendCtrlAltDel
deriving DecidableEq, Repr

/-- serde serialization of `Action` (tagged, PascalCase). -/
def Action.toJson : Action → String
  | .InstanceStart => "\x7b\"action_type\":\"InstanceStart\"\x7d"
  | .SendCtrlAltDel => "\x7b\"action_type\":\"SendCtrlAltDel\"\x7d"

/-- Abstract stand-ins for serde_json::to_string on the model structs;
serialization of these plain structs cannot fail, and no claim inspects
the body text, so the body is a tagged rendering of the identifier. -/
def Drive.toJson (d : Drive) : String := "drive:" ++ d.drive_id ++ ":" ++ d.path_on_host

def NetworkInterface.toJson (n : NetworkInterface) : String := "iface:" ++ n.iface_id

def BootSource.toJson (b : BootSource) : String := "boot:" ++ b.kernel_image_path

/-- `FirecrackerExecutor`: chroot base and binary path. -/
structure FirecrackerExecutor where
  chroot : String
  exec_binary : String
deriving DecidableEq, Repr

/-- The hyper unix client held by the executor; stateless here. -/
structure Client where
  unix : Unit := ()
deriving DecidableEq, Repr

structure Executor where
  firecracker : Option FirecrackerExecutor
  socket_process : Option Nat
  client : Client
  id : String
deriving DecidableEq, Repr

def Executor.new : Executor :=
  { firecracker := none, socket_process := none, id := "default", client := {} }

def Executor.new_with_firecracker (f : FirecrackerExecutor) : Executor :=
  { firecracker := some f, socket_process := none, id := "default", client := {} }

def Executor.with_id (e : Executor) (id : String) : Executor := { e with id := id }

def Executor.is_running (e : Executor) : Bool := e.socket_process.isSome

/-- `Executor::chroot` resolves `self.executor().chroot().join(&self.id)`;
`executor()` panics with "No executor found" when no implementation is
configured, rendered here as `none`. -/
def Executor.chrootPath (e : Executor) : Option String :=
  e.firecracker.map (fun f => pathJoin f.chroot e.id)

/-- `FirecrackerExecutorBuilder::try_build` (names from `stringify!`). -/
def FirecrackerExecutorBuilder.try_build (b : FirecrackerExecutorBuilder) :
    Except BuilderError Executor := do
  let _ ← assert_not_none "self.chroot" b.chroot
  let _ ← assert_not_none "self.exec_binary" b.exec_binary
  .ok (Executor.new_with_firecracker
    { chroot := b.chroot.get!, exec_binary := b.exec_binary.get! })

/-- Insert a path into the file set (append if absent). -/
def insertFile (p : String) (fs : List String) : List String :=
  if p ∈ fs then fs else fs ++ [p]

/-- The `while retries < 10` poll loop of `Executor::wait_healthy`:
`r` is the current `retries` value, the second argument the remaining
budget `10 - retries`; `h n` is the result of the n-th
`std::fs::metadata` probe of the socket path. -/
def wait_healthy_loop (h : Nat → Bool) : Nat → Nat → Except ExecuteError Unit
  | _, 0 => .error .Unhealthy
  | r, rem + 1 => if h r then .ok () else wait_healthy_loop h (r + 1) rem

/-- `Executor::create_workspace`: `create_dir_all` on the chroot —
succeeds when the directory already exists, creates it otherwise, and
errors only on an I/O fault (`env.mkdirOk = false`). -/
def Executor.create_workspace (e : Executor) (env : Env) (w : World) :
    Outcome ExecuteError (Executor × World) Unit :=
  match e.chrootPath with
  | none => .panic "No executor found" (e, w)
  | some root =>
    if root ∈ w.dirs then .ok () (e, w)
    else if env.mkdirOk then .ok () (e, { w with dirs := w.dirs ++ [root] })
    else .err (.WorkspaceCreation "mkdir failed") (e, w)

/-- `Executor::run_socket`: resolve the executor (panic when absent),
spawn the child, then poll for the socket file; only on a healthy
socket is the child stored as `socket_process`. On success the
observed socket file is recorded in the file set. -/
def Executor.run_socket (e : Executor) (env : Env) (w : World) :
    Outcome ExecuteError (Executor × World) Unit :=
  match e.chrootPath with
  | none => .panic "No executor found" (e, w)
  | some root =>
    let sock := pathJoin root "firecracker.socket"
    if env.spawnOk then
      let pid := w.nextPid
      let w1 := { w with processes := w.processes ++ [pid], nextPid := w.nextPid + 1 }
      match wait_healthy_loop env.sockExistsAt 0 10 with
      | .error x => .err x (e, w1)
      | .ok _ =>
        .ok () ({ e with socket_process := some pid },
                { w1 with files := insertFile sock w1.files })
    else .err (.CommandExecution "spawn failed") (e, w)

/-- `Executor::destroy_socket`: resolves the chroot first (panics with
no implementation), errors with `Socket` when no process handle is
present; otherwise kills the child, removes the socket file, and
clears the handle. -/
def Executor.destroy_socket (e : Executor) (env : Env) (w : World) :
    Outcome ExecuteError (Executor × World) Unit :=
  match e.chrootPath with
  | none => .panic "No executor found" (e, w)
  | some root =>
    let sock_path := pathJoin root "firecracker.socket"
    match e.socket_process with
    | none =>
      .err (.Socket "Socket hasn't been spawned, you must spawn it before destroying it")
        (e, w)
    | some pid =>
      if env.killOk then
        let w1 := { w with processes := w.processes.filter (fun q => q ≠ pid) }
        if sock_path ∈ w1.files then
          .ok () ({ e with socket_process := none },
                  { w1 with files := w1.files.filter (fun q => q ≠ sock_path) })
        else .err (.Socket "No such file or directory") (e, w1)
      else .err (.Socket "kill failed") (e, w)

/-- `Executor::send_request`: log the issued request; the response
status of the n-th issued request is `env.respOk n`, a non-success
status yielding `CommandExecution`. -/
def Executor.send_request (e : Executor) (env : Env) (sock path body : String)
    (w : World) : Outcome ExecuteError (Executor × World) Unit :=
  let idx := w.requests.length
  let w1 := { w with requests := w.requests ++ [{ sock := sock, path := path, body := body }] }
  if env.respOk idx then .ok () (e, w1)
  else .err (.CommandExecution ("Failed to send request to " ++ sock ++ path)) (e, w1)

/-- `Executor::send_action`. -/
def Executor.send_action (e : Executor) (env : Env) (a : Action) (w : World) :
    Outcome ExecuteError (Executor × World) Unit :=
  let json := a.toJson
  match e.chrootPath with
  | none => .panic "No executor found" (e, w)
  | some root =>
    e.send_request env (pathJoin root "firecracker.socket") "/actions" json w

/-- `Executor::configure_boot_source`. -/
def Executor.configure_boot_source (e : Executor) (env : Env) (b : BootSource)
    (w : World) : Outcome ExecuteError (Executor × World) Unit :=
  let json := b.toJson
  match e.chrootPath with
  | none => .panic "No executor found" (e, w)
  | some root =>
    e.send_request env (pathJoin root "firecracker.socket") "/boot-source" json w

/-- `Executor::configure_drives`: one PUT per drive, in list order,
aborting at the first failure. -/
def Executor.configure_drives (e : Executor) (env : Env) :
    List Drive → World → Outcome ExecuteError (Executor × World) Unit
  | [], w => .ok () (e, w)
  | d :: rest, w =>
    let json := d.toJson
    match e.chrootPath with
    | none => .panic "No executor found" (e, w)
    | some root =>
      match e.send_request env (pathJoin root "firecracker.socket")
          ("/drives/" ++ d.drive_id) json w with
      | .ok _ (_, w1) => e.configure_drives env rest w1
      | .err x s => .err x s
      | .panic m s => .panic m s

/-- `Executor::configure_network`: one PUT per interface, in list
order, aborting at the first failure. -/
def Executor.configure_network (e : Executor) (env : Env) :
    List NetworkInterface → World → Outcome ExecuteError (Executor × World) Unit
  | [], w => .ok () (e, w)
  | n :: rest, w =>
    let json := n.toJson
    match e.chrootPath with
    | none => .panic "No executor found" (e, w)
    | some root =>
      match e.send_request env (pathJoin root "firecracker.socket")
          ("/network-interfaces/" ++ n.iface_id) json w with
      | .ok _ (_, w1) => e.configure_network env rest w1
      | .err x s => .err x s
      | .panic m s => .panic m s

/- ----------------------------------------------------------------
   Configuration (src/firepilot/src/builder/mod.rs)
   ---------------------------------------------------------------- -/

structure Configuration where
  executor : Option Executor
  kernel : Option BootSource
  storage : List Drive
  interfaces : List NetworkInterface
  vm_id : String

def Configuration.new (vm_id : String) : Configuration :=
  { kernel := none, executor := none, storage := [], interfaces := [], vm_id := vm_id }

def Configuration.with_kernel (c : Configuration) (k : BootSource) : Configuration :=
  { c with kernel := some k }

/-- `Configuration::with_executor` re-ids the executor with the vm id
before storing it. -/
def Configuration.with_executor (c : Configuration) (e : Executor) : Configuration :=
  { c with executor := some (e.with_id c.vm_id) }

def Configuration.with_drive (c : Configuration) (d : Drive) : Configuration :=
  { c with storage := c.storage ++ [d] }

def Configuration.with_interface (c : Configuration) (n : NetworkInterface) : Configuration :=
  { c with interfaces := c.interfaces ++ [n] }

/- ----------------------------------------------------------------
   Machine (src/firepilot/src/machine.rs)
   ---------------------------------------------------------------- -/

structure Machine where
  executor : Executor

def Machine.new : Machine := { executor := Executor.new }

/-- `Machine::copy` over the modelled file system: `std::fs::copy`
succeeds when the source file exists, creating the destination. -/
def fsCopy (src dst : String) (w : World) : Except String World :=
  if src ∈ w.files then .ok { w with files := insertFile dst w.files }
  else .error ("Failed to copy " ++ src ++ " to " ++ dst)

/-- Step 3 of `Machine::create`: copy each drive image into the
workspace keyed by drive id and rewrite its `path_on_host` in place. -/
def stageDrives (root : String) :
    List Drive → World → Outcome FirepilotError World (List Drive)
  | [], w => .ok [] w
  | d :: rest, w =>
    let new_drive_path := pathJoin root d.drive_id
    match fsCopy d.path_on_host new_drive_path w with
    | .error msg => .err (.Setup msg) w
    | .ok w1 =>
      match stageDrives root rest w1 with
      | .ok ds w2 => .ok ({ d with path_on_host := new_drive_path } :: ds) w2
      | .err x w2 => .err x w2
      | .panic m w2 => .panic m w2

/-- Step 4 (optional part) of `Machine::create`: stage the initrd when
present. -/
def stageInitrd (root : String) (kernel : BootSource) (w : World) : Except String World :=
  match kernel.initrd_path with
  | some initrd => fsCopy initrd (pathJoin root "initrd") w
  | none => .ok w

/-- Lift an executor-level outcome into the machine error taxonomy
(the `From<ExecuteError> for FirepilotError` impl applied by `?`). -/
def liftE {α : Type} (r : Outcome ExecuteError (Executor × World) α) :
    Outcome FirepilotError (Executor × World) α :=
  match r with
  | .ok a s => .ok a s
  | .err x s => .err (FirepilotError.ofExecuteError x) s
  | .panic m s => .panic m s

/-- Body of `Machine::create` after the executor has been taken from
the configuration: steps 2-6 in source order. -/
def createSeq (ex : Executor) (env : Env) (kernel? : Option BootSource)
    (storage : List Drive) (interfaces : List NetworkInterface) (w : World) :
    Outcome FirepilotError (Executor × World) Unit :=
  match liftE (ex.create_workspace env w) with
  | .err x s => .err x s
  | .panic m s => .panic m s
  | .ok _ (e1, w1) =>
    match kernel? with
    | none => .panic "called Option unwrap on a None value" (e1, w1)
    | some kernel =>
      match e1.chrootPath with
      | none => .panic "No executor found" (e1, w1)
      | some root =>
        match stageDrives root storage w1 with
        | .err x w2 => .err x (e1, w2)
        | .panic m w2 => .panic m (e1, w2)
        | .ok staged w2 =>
          match fsCopy kernel.kernel_image_path (pathJoin root "vmlinux") w2 with
          | .error msg => .err (.Setup msg) (e1, w2)
          | .ok w3 =>
            match stageInitrd root kernel w3 with
            | .error msg => .err (.Setup msg) (e1, w3)
            | .ok w4 =>
              match liftE (e1.run_socket env w4) with
              | .err x s => .err x s
              | .panic m s => .panic m s
              | .ok _ (e2, w5) =>
                match liftE (e2.configure_drives env staged w5) with
                | .err x s => .err x s
                | .panic m s => .panic m s
                | .ok _ (e3, w6) =>
                  match liftE (e3.configure_boot_source env kernel w6) with
                  | .err x s => .err x s
                  | .panic m s => .panic m s
                  | .ok _ (e4, w7) =>
                    match liftE (e4.configure_network env interfaces w7) with
                    | .err x s => .err x s
                    | .panic m s => .panic m s
                    | .ok _ s => .ok () s

/-- `Machine::create`: take the executor from the configuration
(`Setup` error when absent), then run the staged sequence. -/
def Machine.create (m : Machine) (env : Env) (cfg : Configuration) (w : World) :
    Outcome FirepilotError (Machine × World) Unit :=
  match cfg.executor with
  | none => .err (.Setup "No executor was provided in the configuration") (m, w)
  | some ex =>
    match createSeq ex env cfg.kernel cfg.storage cfg.interfaces w with
    | .ok a (e, w2) => .ok a ({ executor := e }, w2)
    | .err x (e, w2) => .err x ({ executor := e }, w2)
    | .panic msg (e, w2) => .panic msg ({ executor := e }, w2)

/-- `Machine::kill`. -/
def Machine.kill (m : Machine) (env : Env) (w : World) :
    Outcome FirepilotError (Machine × World) Unit :=
  match liftE (m.executor.destroy_socket env w) with
  | .ok a (e, w2) => .ok a ({ executor := e }, w2)
  | .err x (e, w2) => .err x ({ executor := e }, w2)
  | .panic msg (e, w2) => .panic msg ({ executor := e }, w2)

/-- `Machine::start`. -/
def Machine.start (m : Machine) (env : Env) (w : World) :
    Outcome FirepilotError (Machine × World) Unit :=
  match liftE (m.executor.send_action env .InstanceStart w) with
  | .ok a (e, w2) => .ok a ({ executor := e }, w2)
  | .err x (e, w2) => .err x ({ executor := e }, w2)
  | .panic msg (e, w2) => .panic msg ({ executor := e }, w2)

/-- `Machine::stop`. -/
def Machine.stop (m : Machine) (env : Env) (w : World) :
    Outcome FirepilotError (Machine × World) Unit :=
  match liftE (m.executor.send_action env .SendCtrlAltDel w) with
  | .ok a (e, w2) => .ok a ({ executor := e }, w2)
  | .err x (e, w2) => .err x ({ executor := e }, w2)
  | .panic msg (e, w2) => .panic msg ({ executor := e }, w2)

/- ----------------------------------------------------------------
   Request abbreviations used by the configuration-order theorems
   ---------------------------------------------------------------- -/

/-- The PUT issued for one drive by `configure_drives`. -/
def driveReq (root : String) (d : Drive) : SockRequest :=
  { sock := pathJoin root "firecracker.socket"
    path := "/drives/" ++ d.drive_id
    body := d.toJson }

/-- The PUT issued for one interface by `configure_network`. -/
def netReq (root : String) (n : NetworkInterface) : SockRequest :=
  { sock := pathJoin root "firecracker.socket"
    path := "/network-interfaces/" ++ n.iface_id
    body := n.toJson }

/-- The PUT issued by `configure_boot_source`. -/
def bootReq (root : String) (b : BootSource) : SockRequest :=
  { sock := pathJoin root "firecracker.socket"
    path := "/boot-source"
    body := b.toJson }

/- ----------------------------------------------------------------
   Theorems
   ---------------------------------------------------------------- -/

/-- C9: `Configuration::with_executor` stores the executor re-identified
with the configuration's vm id, overwriting its previous id and leaving
implementation, process handle and client untouched; with a configured
implementation its per-VM chroot is the base chroot joined with the vm id. -/
theorem with_executor_rebinds_id (c : Configuration) (e : Executor) :
    (c.with_executor e).executor = some (e.with_id c.vm_id) ∧
    (e.with_id c.vm_id).id = c.vm_id ∧
    (e.with_id c.vm_id).firecracker = e.firecracker ∧
    (e.with_id c.vm_id).socket_process = e.socket_process ∧
    (e.with_id c.vm_id).client = e.client ∧
    (∀ f, e.firecracker = some f →
      (e.with_id c.vm_id).chrootPath = some (pathJoin f.chroot c.vm_id)) := by
  refine ⟨rfl, rfl, rfl, rfl, rfl, ?_⟩
  intro f hf
  simp [Executor.chrootPath, Executor.with_id, hf]

/-- Witness for C9 at a concrete configuration and executor. -/
theorem with_executor_rebinds_id_witness :
    ((Executor.new_with_firecracker
        { chroot := "/srv", exec_binary := "/usr/bin/firecracker" }).with_id "vm1").chrootPath
      = some (pathJoin "/srv" "vm1") :=
  (with_executor_rebinds_id (Configuration.new "vm1")
      (Executor.new_with_firecracker
        { chroot := "/srv", exec_binary := "/usr/bin/firecracker" })).2.2.2.2.2
    { chroot := "/srv", exec_binary := "/usr/bin/firecracker" } rfl

/-- C10: with no firecracker implementation configured, every operation
that resolves the chroot path panics with "No executor found":
workspace creation, socket spawn, socket teardown, action dispatch,
boot-source configuration, and drive/network configuration on a
non-empty list; hence `Machine::new` followed by start, stop or kill
reaches this panic. -/
theorem no_executor_operations_panic (e : Executor) (env : Env) (w : World)
    (h : e.firecracker = none) :
    e.create_workspace env w = .panic "No executor found" (e, w) ∧
    e.run_socket env w = .panic "No executor found" (e, w) ∧
    e.destroy_socket env w = .panic "No executor found" (e, w) ∧
    (∀ a, e.send_action env a w = .panic "No executor found" (e, w)) ∧
    (∀ b, e.configure_boot_source env b w = .panic "No executor found" (e, w)) ∧
    (∀ d ds, e.configure_drives env (d :: ds) w = .panic "No executor found" (e, w)) ∧
    (∀ n ns, e.configure_network env (n :: ns) w = .panic "No executor found" (e, w)) ∧
    Machine.new.start env w = .panic "No executor found" (Machine.new, w) ∧
    Machine.new.stop env w = .panic "No executor found" (Machine.new, w) ∧
    Machine.new.kill env w = .panic "No executor found" (Machine.new, w) := by
  have hc : e.chrootPath = none := by simp [Executor.chrootPath, h]
  refine ⟨?_, ?_, ?_, ?_, ?_, ?_, ?_, rfl, rfl, rfl⟩
  · simp [Executor.create_workspace, hc]
  · simp [Executor.run_socket, hc]
  · simp [Executor.destroy_socket, hc]
  · intro a; simp [Executor.send_action, hc]
  · intro b; simp [Executor.configure_boot_source, hc]
  · intro d ds; simp [Executor.configure_drives, hc]
  · intro n ns; simp [Executor.configure_network, hc]

/-- Witness for C10 at `Executor.new` with a concrete environment. -/
theorem no_executor_operations_panic_witness :
    Executor.new.run_socket
        { spawnOk := true, sockExistsAt := fun _ => true, respOk := fun _ => true,
          killOk := true, mkdirOk := true }
        { dirs := [], files := [], processes := [], requests := [], nextPid := 0 }
      = .panic "No executor found"
        (Executor.new,
         { dirs := [], files := [], processes := [], requests := [], nextPid := 0 }) :=
  (no_executor_operations_panic Executor.new
    { spawnOk := true, sockExistsAt := fun _ => true, respOk := fun _ => true,
      killOk := true, mkdirOk := true }
    { dirs := [], files := [], processes := [], requests := [], nextPid := 0 }
    rfl).2.1

/-- C8: `create_workspace` is idempotent: a successful call leaves the
chroot directory present, so an immediate second call (under any
environment) succeeds and changes nothing. -/
theorem create_workspace_idempotent (e : Executor) (env env2 : Env) (w w2 : World)
    (h : e.create_workspace env w = .ok () (e, w2)) :
    e.create_workspace env2 w2 = .ok () (e, w2) := by
  unfold Executor.create_workspace at h ⊢
  cases hc : e.chrootPath with
  | none => rw [hc] at h; exact Outcome.noConfusion h
  | some root =>
    rw [hc] at h
    dsimp only at h ⊢
    by_cases hd : root ∈ w.dirs
    · rw [if_pos hd] at h
      injection h with h1 h2
      obtain rfl : w2 = w := (congrArg Prod.snd h2).symm
      rw [if_pos hd]
    · rw [if_neg hd] at h
      by_cases hm : env.mkdirOk = true
      · rw [if_pos hm] at h
        injection h with h1 h2
        obtain rfl : w2 = { w with dirs := w.dirs ++ [root] } :=
          (congrArg Prod.snd h2).symm
        have hd2 : root ∈ ({ w with dirs := w.dirs ++ [root] } : World).dirs := by simp
        rw [if_pos hd2]
      · rw [if_neg hm] at h
        exact Outcome.noConfusion h

/-- Witness for C8: a fresh workspace creation followed by a second call. -/
theorem create_workspace_idempotent_witness :
    ({ firecracker := some { chroot := "/srv", exec_binary := "/usr/bin/firecracker" },
       socket_process := none, client := {}, id := "vm" } : Executor).create_workspace
      { spawnOk := true, sockExistsAt := fun _ => true, respOk := fun _ => true,
        killOk := true, mkdirOk := false }
      { dirs := ["/srv/vm"], files := [], processes := [], requests := [], nextPid := 0 }
    = .ok ()
      ({ firecracker := some { chroot := "/srv", exec_binary := "/usr/bin/firecracker" },
         socket_process := none, client := {}, id := "vm" },
       { dirs := ["/srv/vm"], files := [], processes := [], requests := [], nextPid := 0 }) :=
  create_workspace_idempotent
    { firecracker := some { chroot := "/srv", exec_binary := "/usr/bin/firecracker" },
      socket_process := none, client := {}, id := "vm" }
    { spawnOk := true, sockExistsAt := fun _ => true, respOk := fun _ => true,
      killOk := true, mkdirOk := true }
    { spawnOk := true, sockExistsAt := fun _ => true, respOk := fun _ => true,
      killOk := true, mkdirOk := false }
    { dirs := [], files := [], processes := [], requests := [], nextPid := 0 }
    { dirs := ["/srv/vm"], files := [], processes := [], requests := [], nextPid := 0 }
    (by simp [Executor.create_workspace, Executor.chrootPath, pathJoin])

/-- C2 counterexample: the executor builder with only `exec_binary` set
fails with `MissingRequiredField "self.chroot"` — the `stringify!`-derived
name, not the bare field name `"chroot"` the claim requires. -/
theorem missing_field_name_is_not_bare :
    (FirecrackerExecutorBuilder.new.with_exec_binary "/usr/bin/firecracker").try_build
        = .error (.MissingRequiredField "self.chroot") ∧
      "self.chroot" ≠ "chroot" := by
  exact ⟨rfl, by decide⟩

/-- C2 (amended): for every builder, `try_build` succeeds iff all the
required fields are set; when required fields are missing the error is
`MissingRequiredField` for the first unset field in checked order, its
name being the `stringify!`-rendered access text `"self.<field>"`
(e.g. `"self.chroot"`), not the bare field name. -/
theorem try_build_required_fields :
    (∀ b : DriveBuilder,
      ((∃ v, b.try_build = .ok v) ↔
        (b.drive_id.isSome = true ∧ b.path_on_host.isSome = true)) ∧
      (b.drive_id = none →
        b.try_build = .error (.MissingRequiredField "self.drive_id")) ∧
      (b.drive_id.isSome = true → b.path_on_host = none →
        b.try_build = .error (.MissingRequiredField "self.path_on_host"))) ∧
    (∀ b : KernelBuilder,
      ((∃ v, b.try_build = .ok v) ↔ b.kernel_image_path.isSome = true) ∧
      (b.kernel_image_path = none →
        b.try_build = .error (.MissingRequiredField "self.kernel_image_path"))) ∧
    (∀ b : NetworkInterfaceBuilder,
      ((∃ v, b.try_build = .ok v) ↔
        (b.host_dev_name.isSome = true ∧ b.iface_id.isSome = true)) ∧
      (b.host_dev_name = none →
        b.try_build = .error (.MissingRequiredField "self.host_dev_name")) ∧
      (b.host_dev_name.isSome = true → b.iface_id = none →
        b.try_build = .error (.MissingRequiredField "self.iface_id"))) ∧
    (∀ b : VsockBuilder,
      ((∃ v, b.try_build = .ok v) ↔
        (b.guest_cid.isSome = true ∧ b.uds_path.isSome = true)) ∧
      (b.guest_cid = none →
        b.try_build = .error (.MissingRequiredField "self.guest_cid")) ∧
      (b.guest_cid.isSome = true → b.uds_path = none →
        b.try_build = .error (.MissingRequiredField "self.uds_path"))) ∧
    (∀ b : FirecrackerExecutorBuilder,
      ((∃ v, b.try_build = .ok v) ↔
        (b.chroot.isSome = true ∧ b.exec_binary.isSome = true)) ∧
      (b.chroot = none →
        b.try_build = .error (.MissingRequiredField "self.chroot")) ∧
      (b.chroot.isSome = true → b.exec_binary = none →
        b.try_build = .error (.MissingRequiredField "self.exec_binary"))) := by
  refine ⟨?_, ?_, ?_, ?_, ?_⟩
  · rintro ⟨id, path, rd, ro⟩
    cases id <;> cases path <;>
      simp [DriveBuilder.try_build, assert_not_none, Bind.bind, Except.bind]
  · rintro ⟨args, initrd, kip⟩
    cases kip <;>
      simp [KernelBuilder.try_build, assert_not_none, Bind.bind, Except.bind]
  · rintro ⟨mac, hdn, ifid, rx, tx⟩
    cases hdn <;> cases ifid <;>
      simp [NetworkInterfaceBuilder.try_build, assert_not_none, Bind.bind, Except.bind]
  · rintro ⟨cid, uds⟩
    cases cid <;> cases uds <;>
      simp [VsockBuilder.try_build, assert_not_none, Bind.bind, Except.bind]
  · rintro ⟨ch, bin⟩
    cases ch <;> cases bin <;>
      simp [FirecrackerExecutorBuilder.try_build, assert_not_none, Bind.bind, Except.bind]

/-- Witness for C2's amended theorem: a drive builder missing only its
host path fails naming `"self.path_on_host"`. -/
theorem try_build_required_fields_witness :
    (DriveBuilder.new.with_drive_id "rootfs").try_build
      = .error (.MissingRequiredField "self.path_on_host") :=
  (try_build_required_fields.1 (DriveBuilder.new.with_drive_id "rootfs")).2.2 rfl rfl

/-- C4: binary discovery priority: an override variable naming an
existing file wins; an override naming a missing file is skipped and
discovery continues unchanged; otherwise the first `PATH` directory
holding a `firecracker` file wins; otherwise `./firecracker` when it is
a file; otherwise `BinaryNotFound` with the diagnostic hint. -/
theorem determine_binary_location_priority (d : DiscoveryEnv) :
    (∀ p, d.firecracker_location = some p → d.is_file p = true →
      determine_binary_location d = .ok p) ∧
    (∀ p, d.firecracker_location = some p → d.is_file p = false →
      determine_binary_location d
        = determine_binary_location { d with firecracker_location := none }) ∧
    (find_binary_from_env_location d = none →
      ∀ dirs pre dir post, d.path_dirs = some dirs → dirs = pre ++ dir :: post →
      (∀ x ∈ pre, d.is_file (pathJoin x "firecracker") = false) →
      d.is_file (pathJoin dir "firecracker") = true →
      determine_binary_location d = .ok (pathJoin dir "firecracker")) ∧
    (find_binary_from_env_location d = none → find_binary_from_path d = none →
      d.is_file "./firecracker" = true →
      determine_binary_location d = .ok "./firecracker") ∧
    (find_binary_from_env_location d = none → find_binary_from_path d = none →
      d.is_file "./firecracker" = false →
      determine_binary_location d = .error (.BinaryNotFound binaryNotFoundHint)) := by
  refine ⟨?_, ?_, ?_, ?_, ?_⟩
  · intro p hloc hfile
    simp [determine_binary_location, find_binary_from_env_location, hloc, hfile,
      Option.orElse]
  · intro p hloc hfile
    simp [determine_binary_location, find_binary_from_env_location, hloc, hfile,
      find_binary_from_path, find_binary_from_current_directory]
  · intro henv dirs pre dir post hdirs hsplit hpre hdir
    have hpath : find_binary_from_path d = some (pathJoin dir "firecracker") := by
      have hnil : pre.filterMap (fun x =>
          if d.is_file (pathJoin x "firecracker") then some (pathJoin x "firecracker")
          else none) = [] := by
        rw [List.filterMap_eq_nil_iff]
        intro x hx
        simp [hpre x hx]
      simp [find_binary_from_path, hdirs, hsplit, List.filterMap_append, hnil, hdir]
    simp [determine_binary_location, henv, hpath, Option.orElse]
  · intro henv hpath hcwd
    simp [determine_binary_location, henv, hpath, find_binary_from_current_directory,
      hcwd, Option.orElse]
  · intro henv hpath hcwd
    simp [determine_binary_location, henv, hpath, find_binary_from_current_directory,
      hcwd, Option.orElse]

/-- Witness for C4: with the override pointing at an existing file the
override path is returned. -/
theorem determine_binary_location_priority_witness :
    determine_binary_location
        { firecracker_location := some "/opt/fc", path_dirs := some ["/bin"],
          is_file := fun _ => true }
      = .ok "/opt/fc" :=
  (determine_binary_location_priority
      { firecracker_location := some "/opt/fc", path_dirs := some ["/bin"],
        is_file := fun _ => true }).1 "/opt/fc" rfl rfl

lemma not_mem_filter_ne (l : List String) (a : String) :
    a ∉ l.filter (fun q => q ≠ a) := by
  simp [List.mem_filter]

/-- C3: with a configured firecracker implementation, `destroy_socket`
with no spawned process returns a `Socket` error (no panic); with a
spawned process, a working kill and the socket file present, it
succeeds, terminates the child, removes the socket file and clears the
handle, so an immediate second call returns a `Socket` error instead of
double-terminating. -/
theorem destroy_socket_contract (e : Executor) (f : FirecrackerExecutor) (env : Env)
    (w : World) (hf : e.firecracker = some f) :
    (e.socket_process = none →
      e.destroy_socket env w =
        .err (.Socket "Socket hasn't been spawned, you must spawn it before destroying it")
          (e, w)) ∧
    (∀ pid, e.socket_process = some pid → env.killOk = true →
      pathJoin (pathJoin f.chroot e.id) "firecracker.socket" ∈ w.files →
      ∃ e2 w2,
        e.destroy_socket env w = .ok () (e2, w2) ∧
        e2.socket_process = none ∧
        e2.firecracker = e.firecracker ∧ e2.id = e.id ∧
        w2.processes = w.processes.filter (fun q => q ≠ pid) ∧
        pathJoin (pathJoin f.chroot e.id) "firecracker.socket" ∉ w2.files ∧
        (∀ env3 w3, e2.destroy_socket env3 w3 =
          .err (.Socket "Socket hasn't been spawned, you must spawn it before destroying it")
            (e2, w3))) := by
  have hc : e.chrootPath = some (pathJoin f.chroot e.id) := by
    simp [Executor.chrootPath, hf]
  constructor
  · intro hsp
    simp [Executor.destroy_socket, hc, hsp]
  · intro pid hsp hkill hmem
    refine ⟨{ e with socket_process := none },
      { w with processes := w.processes.filter (fun q => q ≠ pid),
               files := w.files.filter
                 (fun q => q ≠ pathJoin (pathJoin f.chroot e.id) "firecracker.socket") },
      ?_, rfl, rfl, rfl, rfl, not_mem_filter_ne _ _, ?_⟩
    · simp [Executor.destroy_socket, hc, hsp, hkill, hmem]
    · intro env3 w3
      have hc2 : ({ e with socket_process := none } : Executor).chrootPath
          = some (pathJoin f.chroot e.id) := by
        simp [Executor.chrootPath, hf]
      simp [Executor.destroy_socket, hc2]

/-- Witness for C3 at a concrete executor with no spawned process. -/
theorem destroy_socket_contract_witness :
    ({ firecracker := some { chroot := "/srv", exec_binary := "/usr/bin/firecracker" },
       socket_process := none, client := {}, id := "vm" } : Executor).destroy_socket
      { spawnOk := true, sockExistsAt := fun _ => true, respOk := fun _ => true,
        killOk := true, mkdirOk := true }
      { dirs := [], files := [], processes := [], requests := [], nextPid := 0 }
    = .err (.Socket "Socket hasn't been spawned, you must spawn it before destroying it")
      ({ firecracker := some { chroot := "/srv", exec_binary := "/usr/bin/firecracker" },
         socket_process := none, client := {}, id := "vm" },
       { dirs := [], files := [], processes := [], requests := [], nextPid := 0 }) :=
  (destroy_socket_contract
    { firecracker := some { chroot := "/srv", exec_binary := "/usr/bin/firecracker" },
      socket_process := none, client := {}, id := "vm" }
    { chroot := "/srv", exec_binary := "/usr/bin/firecracker" }
    { spawnOk := true, sockExistsAt := fun _ => true, respOk := fun _ => true,
      killOk := true, mkdirOk := true }
    { dirs := [], files := [], processes := [], requests := [], nextPid := 0 }
    rfl).1 rfl

lemma wait_healthy_loop_ok_iff (h : Nat → Bool) :
    ∀ rem r, (wait_healthy_loop h r rem = .ok () ↔ ∃ i, i < rem ∧ h (r + i) = true) := by
  intro rem
  induction rem with
  | zero => intro r; simp [wait_healthy_loop]
  | succ n ih =>
    intro r
    cases hr : h r with
    | true =>
      have hok : wait_healthy_loop h r (n + 1) = .ok () := by
        simp [wait_healthy_loop, hr]
      rw [hok]
      constructor
      · intro _; exact ⟨0, Nat.succ_pos n, by simpa using hr⟩
      · intro _; rfl
    | false =>
      have hstep : wait_healthy_loop h r (n + 1) = wait_healthy_loop h (r + 1) n := by
        simp [wait_healthy_loop, hr]
      rw [hstep, ih (r + 1)]
      constructor
      · rintro ⟨i, hi, hhi⟩
        refine ⟨i + 1, by omega, ?_⟩
        have harith : r + (i + 1) = r + 1 + i := by omega
        rw [harith]; exact hhi
      · rintro ⟨i, hi, hhi⟩
        cases i with
        | zero =>
          rw [Nat.add_zero, hr] at hhi
          exact Bool.noConfusion hhi
        | succ j =>
          refine ⟨j, by omega, ?_⟩
          have harith : r + 1 + j = r + (j + 1) := by omega
          rw [harith]; exact hhi

lemma wait_healthy_loop_err (h : Nat → Bool) :
    ∀ rem r, (∀ i, i < rem → h (r + i) = false) →
      wait_healthy_loop h r rem = .error .Unhealthy := by
  intro rem
  induction rem with
  | zero => intro r _; simp [wait_healthy_loop]
  | succ n ih =>
    intro r hall
    have hr : h r = false := by simpa using hall 0 (Nat.succ_pos n)
    have hstep : wait_healthy_loop h r (n + 1) = wait_healthy_loop h (r + 1) n := by
      simp [wait_healthy_loop, hr]
    rw [hstep]
    refine ih (r + 1) (fun i hi => ?_)
    have harith : r + 1 + i = r + (i + 1) := by omega
    rw [harith]
    exact hall (i + 1) (by omega)

/-- C5: `run_socket` polls the socket file with a budget of exactly 10
checks; if no check observes the file it returns `Unhealthy`, leaves
the spawned child running in the process table and does not set the
process handle (the executor is returned unchanged); if some check
within the budget observes the file it returns `Ok` and stores the
spawned child as the process handle. -/
theorem run_socket_contract (e : Executor) (f : FirecrackerExecutor) (env : Env)
    (w : World) (hf : e.firecracker = some f) (hs : env.spawnOk = true) :
    ((∀ n, n < 10 → env.sockExistsAt n = false) →
      e.run_socket env w = .err .Unhealthy
        (e, { w with processes := w.processes ++ [w.nextPid], nextPid := w.nextPid + 1 })) ∧
    ((∃ n, n < 10 ∧ env.sockExistsAt n = true) →
      e.run_socket env w = .ok ()
        ({ e with socket_process := some w.nextPid },
         { w with
             files := insertFile (pathJoin (pathJoin f.chroot e.id) "firecracker.socket")
               w.files,
             processes := w.processes ++ [w.nextPid], nextPid := w.nextPid + 1 })) := by
  have hc : e.chrootPath = some (pathJoin f.chroot e.id) := by
    simp [Executor.chrootPath, hf]
  constructor
  · intro hall
    have hloop : wait_healthy_loop env.sockExistsAt 0 10 = .error .Unhealthy :=
      wait_healthy_loop_err _ 10 0 (fun i hi => by simpa using hall i hi)
    simp [Executor.run_socket, hc, hs, hloop]
  · rintro ⟨n, hn, hsock⟩
    have hloop : wait_healthy_loop env.sockExistsAt 0 10 = .ok () :=
      (wait_healthy_loop_ok_iff _ 10 0).2 ⟨n, hn, by simpa using hsock⟩
    simp [Executor.run_socket, hc, hs, hloop]

/-- Witness for C5: the socket file observed at the first check. -/
theorem run_socket_contract_witness :
    ({ firecracker := some { chroot := "/srv", exec_binary := "/usr/bin/firecracker" },
       socket_process := none, client := {}, id := "vm" } : Executor).run_socket
      { spawnOk := true, sockExistsAt := fun _ => true, respOk := fun _ => true,
        killOk := true, mkdirOk := true }
      { dirs := ["/srv/vm"], files := [], processes := [], requests := [], nextPid := 3 }
    = .ok ()
      ({ firecracker := some { chroot := "/srv", exec_binary := "/usr/bin/firecracker" },
         socket_process := some 3, client := {}, id := "vm" },
       { dirs := ["/srv/vm"], files := ["/srv/vm/firecracker.socket"], processes := [3],
         requests := [], nextPid := 4 }) :=
  (run_socket_contract
    { firecracker := some { chroot := "/srv", exec_binary := "/usr/bin/firecracker" },
      socket_process := none, client := {}, id := "vm" }
    { chroot := "/srv", exec_binary := "/usr/bin/firecracker" }
    { spawnOk := true, sockExistsAt := fun _ => true, respOk := fun _ => true,
      killOk := true, mkdirOk := true }
    { dirs := ["/srv/vm"], files := [], processes := [], requests := [], nextPid := 3 }
    rfl rfl).2 ⟨0, by omega, rfl⟩

/- Step-case lemmas tracking the request log through each phase of the
create sequence. -/

lemma create_workspace_cases (e : Executor) (env : Env) (w : World) (root : String)
    (hc : e.chrootPath = some root) :
    (∃ w2, e.create_workspace env w = .ok () (e, w2) ∧ w2.requests = w.requests ∧
      w2.files = w.files ∧ w2.processes = w.processes ∧ w2.nextPid = w.nextPid) ∨
    (root ∉ w.dirs ∧ env.mkdirOk = false ∧
      e.create_workspace env w = .err (.WorkspaceCreation "mkdir failed") (e, w)) := by
  by_cases hd : root ∈ w.dirs
  · exact .inl ⟨w, by simp [Executor.create_workspace, hc, hd], rfl, rfl, rfl, rfl⟩
  · by_cases hm : env.mkdirOk = true
    · exact .inl ⟨{ w with dirs := w.dirs ++ [root] },
        by simp [Executor.create_workspace, hc, hd, hm], rfl, rfl, rfl, rfl⟩
    · exact .inr ⟨hd, by simpa using hm,
        by simp [Executor.create_workspace, hc, hd, hm]⟩

lemma fsCopy_cases (src dst : String) (w : World) :
    (∃ w2, fsCopy src dst w = .ok w2 ∧ w2.requests = w.requests ∧
      w2.dirs = w.dirs ∧ w2.processes = w.processes ∧ w2.nextPid = w.nextPid) ∨
    fsCopy src dst w = .error ("Failed to copy " ++ src ++ " to " ++ dst) := by
  by_cases hm : src ∈ w.files
  · exact .inl ⟨{ w with files := insertFile dst w.files },
      by simp [fsCopy, hm], rfl, rfl, rfl, rfl⟩
  · exact .inr (by simp [fsCopy, hm])

lemma stageInitrd_cases (root : String) (kernel : BootSource) (w : World) :
    (∃ w2, stageInitrd root kernel w = .ok w2 ∧ w2.requests = w.requests ∧
      w2.dirs = w.dirs ∧ w2.processes = w.processes ∧ w2.nextPid = w.nextPid) ∨
    (∃ ipath, kernel.initrd_path = some ipath ∧
      stageInitrd root kernel w =
        .error ("Failed to copy " ++ ipath ++ " to " ++ pathJoin root "initrd")) := by
  unfold stageInitrd
  cases hip : kernel.initrd_path with
  | none => exact .inl ⟨w, rfl, rfl, rfl, rfl, rfl⟩
  | some initrd =>
    rcases fsCopy_cases initrd (pathJoin root "initrd") w with
      ⟨w2, hcp, h1, h2, h3, h4⟩ | hcp
    · exact .inl ⟨w2, hcp, h1, h2, h3, h4⟩
    · exact .inr ⟨initrd, rfl, hcp⟩

/-- The in-place rewrite performed on one drive by the staging loop. -/
def stagedDrive (root : String) (d : Drive) : Drive :=
  { d with path_on_host := pathJoin root d.drive_id }

lemma stageDrives_cases (root : String) :
    ∀ (ds : List Drive) (w : World),
    (∃ w2, stageDrives root ds w = .ok (ds.map (stagedDrive root)) w2 ∧
      w2.requests = w.requests ∧ w2.dirs = w.dirs ∧
      w2.processes = w.processes ∧ w2.nextPid = w.nextPid) ∨
    (∃ j hj w2, stageDrives root ds w =
        .err (.Setup ("Failed to copy " ++ (ds.get ⟨j, hj⟩).path_on_host ++ " to "
          ++ pathJoin root (ds.get ⟨j, hj⟩).drive_id)) w2 ∧
      w2.requests = w.requests ∧ w2.dirs = w.dirs ∧
      w2.processes = w.processes ∧ w2.nextPid = w.nextPid) := by
  intro ds
  induction ds with
  | nil => intro w; exact .inl ⟨w, rfl, rfl, rfl, rfl, rfl⟩
  | cons d rest ih =>
    intro w
    rcases fsCopy_cases d.path_on_host (pathJoin root d.drive_id) w with
      ⟨w1, hcopy, hr1, hd1, hp1, hn1⟩ | hcopy
    · rcases ih w1 with ⟨w2, hrest, hr2, hd2, hp2, hn2⟩ |
        ⟨j, hj, w2, hrest, hr2, hd2, hp2, hn2⟩
      · refine .inl ⟨w2, ?_, by rw [hr2, hr1], by rw [hd2, hd1],
          by rw [hp2, hp1], by rw [hn2, hn1]⟩
        simp [stageDrives, hcopy, hrest, stagedDrive]
      · refine .inr ⟨j + 1, Nat.succ_lt_succ hj, w2, ?_, by rw [hr2, hr1],
          by rw [hd2, hd1], by rw [hp2, hp1], by rw [hn2, hn1]⟩
        simp [stageDrives, hcopy, hrest]
    · refine .inr ⟨0, Nat.succ_pos _, w, ?_, rfl, rfl, rfl, rfl⟩
      simp [stageDrives, hcopy]

lemma run_socket_cases (e : Executor) (env : Env) (w : World) (root : String)
    (hc : e.chrootPath = some root) :
    (∃ pid w2, e.run_socket env w = .ok () ({ e with socket_process := some pid }, w2) ∧
      w2.requests = w.requests) ∨
    (env.spawnOk = false ∧
      e.run_socket env w = .err (.CommandExecution "spawn failed") (e, w)) ∨
    (env.spawnOk = true ∧ (∀ n, n < 10 → env.sockExistsAt n = false) ∧
      e.run_socket env w = .err .Unhealthy
        (e, { w with processes := w.processes ++ [w.nextPid],
                     nextPid := w.nextPid + 1 })) := by
  by_cases hs : env.spawnOk = true
  · by_cases hobs : ∃ n, n < 10 ∧ env.sockExistsAt n = true
    · have hwl : wait_healthy_loop env.sockExistsAt 0 10 = .ok () :=
        (wait_healthy_loop_ok_iff _ 10 0).2 (by
          obtain ⟨n, hn, hsn⟩ := hobs
          exact ⟨n, hn, by simpa using hsn⟩)
      refine .inl ⟨w.nextPid,
        { w with files := insertFile (pathJoin root "firecracker.socket") w.files,
                 processes := w.processes ++ [w.nextPid], nextPid := w.nextPid + 1 },
        by simp [Executor.run_socket, hc, hs, hwl], rfl⟩
    · have hall : ∀ n, n < 10 → env.sockExistsAt n = false := by
        intro n hn
        cases hsn : env.sockExistsAt n with
        | true => exact absurd ⟨n, hn, hsn⟩ hobs
        | false => rfl
      have hwl : wait_healthy_loop env.sockExistsAt 0 10 = .error .Unhealthy :=
        wait_healthy_loop_err _ 10 0 (fun i hi => by simpa using hall i hi)
      exact .inr (.inr ⟨hs, hall, by simp [Executor.run_socket, hc, hs, hwl]⟩)
  · exact .inr (.inl ⟨by simpa using hs, by simp [Executor.run_socket, hc, hs]⟩)

lemma send_request_cases (e : Executor) (env : Env) (sock path body : String) (w : World) :
    (env.respOk w.requests.length = true ∧
      e.send_request env sock path body w = .ok ()
        (e, { w with requests := w.requests ++ [{ sock := sock, path := path, body := body }] })) ∨
    (env.respOk w.requests.length = false ∧
      e.send_request env sock path body w =
        .err (.CommandExecution ("Failed to send request to " ++ sock ++ path))
          (e, { w with requests := w.requests ++ [{ sock := sock, path := path, body := body }] })) := by
  unfold Executor.send_request
  cases hr : env.respOk w.requests.length with
  | true => exact .inl ⟨rfl, by rw [if_pos hr]⟩
  | false => exact .inr ⟨rfl, by simp [hr]⟩

lemma configure_boot_cases (e : Executor) (env : Env) (b : BootSource) (w : World)
    (root : String) (hc : e.chrootPath = some root) :
    (env.respOk w.requests.length = true ∧
      e.configure_boot_source env b w = .ok ()
        (e, { w with requests := w.requests ++ [bootReq root b] })) ∨
    (env.respOk w.requests.length = false ∧
      e.configure_boot_source env b w =
        .err (.CommandExecution ("Failed to send request to "
            ++ pathJoin root "firecracker.socket" ++ "/boot-source"))
          (e, { w with requests := w.requests ++ [bootReq root b] })) := by
  rcases send_request_cases e env (pathJoin root "firecracker.socket") "/boot-source"
      b.toJson w with ⟨hr, hs⟩ | ⟨hr, hs⟩
  · refine .inl ⟨hr, ?_⟩
    simp only [Executor.configure_boot_source, hc]
    rw [hs]
    simp [bootReq]
  · refine .inr ⟨hr, ?_⟩
    simp only [Executor.configure_boot_source, hc]
    rw [hs]
    simp [bootReq]

lemma configure_drives_cases (e : Executor) (env : Env) (root : String)
    (hc : e.chrootPath = some root) :
    ∀ (ds : List Drive) (w : World),
    ((∀ i, i < ds.length → env.respOk (w.requests.length + i) = true) ∧
      e.configure_drives env ds w = .ok ()
        (e, { w with requests := w.requests ++ ds.map (driveReq root) })) ∨
    (∃ k hk, (∀ i, i < k → env.respOk (w.requests.length + i) = true) ∧
      env.respOk (w.requests.length + k) = false ∧
      e.configure_drives env ds w = .err
        (.CommandExecution ("Failed to send request to "
          ++ pathJoin root "firecracker.socket"
          ++ ("/drives/" ++ (ds.get ⟨k, hk⟩).drive_id)))
        (e, { w with requests := w.requests ++ (ds.take (k + 1)).map (driveReq root) })) := by
  intro ds
  induction ds with
  | nil =>
    intro w
    left
    refine ⟨fun i hi => absurd hi (by simp), ?_⟩
    simp [Executor.configure_drives]
  | cons d rest ih =>
    intro w
    rcases send_request_cases e env (pathJoin root "firecracker.socket")
        ("/drives/" ++ d.drive_id) d.toJson w with ⟨hr, hs⟩ | ⟨hr, hs⟩
    · rcases ih { w with requests := w.requests ++
          [{ sock := pathJoin root "firecracker.socket",
             path := "/drives/" ++ d.drive_id, body := d.toJson }] } with
        ⟨hall, hok⟩ | ⟨k, hk, hbef, hfail, herr⟩
      · left
        constructor
        · intro i hi
          cases i with
          | zero => simpa using hr
          | succ j =>
            have hj : j < rest.length := by simpa using Nat.lt_of_succ_lt_succ hi
            have hprev := hall j hj
            have harith : w.requests.length + (j + 1) = w.requests.length + 1 + j := by
              omega
            rw [harith]
            simpa using hprev
        · simp only [Executor.configure_drives, hc, hs]
          rw [hok]
          simp [driveReq, List.append_assoc]
      · right
        refine ⟨k + 1, Nat.succ_lt_succ hk, ?_, ?_, ?_⟩
        · intro i hi
          cases i with
          | zero => simpa using hr
          | succ j =>
            have hprev := hbef j (Nat.lt_of_succ_lt_succ hi)
            have harith : w.requests.length + (j + 1) = w.requests.length + 1 + j := by
              omega
            rw [harith]
            simpa using hprev
        · have harith : w.requests.length + (k + 1) = w.requests.length + 1 + k := by
            omega
          rw [harith]
          simpa using hfail
        · simp only [Executor.configure_drives, hc, hs]
          rw [herr]
          simp [driveReq, List.append_assoc]
    · right
      refine ⟨0, Nat.succ_pos _, fun i hi => absurd hi (Nat.not_lt_zero i),
        by simpa using hr, ?_⟩
      simp only [Executor.configure_drives, hc, hs]
      simp [driveReq]

lemma configure_network_cases (e : Executor) (env : Env) (root : String)
    (hc : e.chrootPath = some root) :
    ∀ (ns : List NetworkInterface) (w : World),
    ((∀ i, i < ns.length → env.respOk (w.requests.length + i) = true) ∧
      e.configure_network env ns w = .ok ()
        (e, { w with requests := w.requests ++ ns.map (netReq root) })) ∨
    (∃ k hk, (∀ i, i < k → env.respOk (w.requests.length + i) = true) ∧
      env.respOk (w.requests.length + k) = false ∧
      e.configure_network env ns w = .err
        (.CommandExecution ("Failed to send request to "
          ++ pathJoin root "firecracker.socket"
          ++ ("/network-interfaces/" ++ (ns.get ⟨k, hk⟩).iface_id)))
        (e, { w with requests := w.requests ++ (ns.take (k + 1)).map (netReq root) })) := by
  intro ns
  induction ns with
  | nil =>
    intro w
    left
    refine ⟨fun i hi => absurd hi (by simp), ?_⟩
    simp [Executor.configure_network]
  | cons n rest ih =>
    intro w
    rcases send_request_cases e env (pathJoin root "firecracker.socket")
        ("/network-interfaces/" ++ n.iface_id) n.toJson w with ⟨hr, hs⟩ | ⟨hr, hs⟩
    · rcases ih { w with requests := w.requests ++
          [{ sock := pathJoin root "firecracker.socket",
             path := "/network-interfaces/" ++ n.iface_id, body := n.toJson }] } with
        ⟨hall, hok⟩ | ⟨k, hk, hbef, hfail, herr⟩
      · left
        constructor
        · intro i hi
          cases i with
          | zero => simpa using hr
          | succ j =>
            have hj : j < rest.length := by simpa using Nat.lt_of_succ_lt_succ hi
            have hprev := hall j hj
            have harith : w.requests.length + (j + 1) = w.requests.length + 1 + j := by
              omega
            rw [harith]
            simpa using hprev
        · simp only [Executor.configure_network, hc, hs]
          rw [hok]
          simp [netReq, List.append_assoc]
      · right
        refine ⟨k + 1, Nat.succ_lt_succ hk, ?_, ?_, ?_⟩
        · intro i hi
          cases i with
          | zero => simpa using hr
          | succ j =>
            have hprev := hbef j (Nat.lt_of_succ_lt_succ hi)
            have harith : w.requests.length + (j + 1) = w.requests.length + 1 + j := by
              omega
            rw [harith]
            simpa using hprev
        · have harith : w.requests.length + (k + 1) = w.requests.length + 1 + k := by
            omega
          rw [harith]
          simpa using hfail
        · simp only [Executor.configure_network, hc, hs]
          rw [herr]
          simp [netReq, List.append_assoc]
    · right
      refine ⟨0, Nat.succ_pos _, fun i hi => absurd hi (Nat.not_lt_zero i),
        by simpa using hr, ?_⟩
      simp only [Executor.configure_network, hc, hs]
      simp [netReq]

lemma configure_drives_first_failure (e : Executor) (env : Env) (root : String)
    (hc : e.chrootPath = some root) :
    ∀ (ds : List Drive) (w : World) (k : Nat) (hk : k < ds.length),
      (∀ i, i < k → env.respOk (w.requests.length + i) = true) →
      env.respOk (w.requests.length + k) = false →
      e.configure_drives env ds w =
        .err (.CommandExecution ("Failed to send request to "
            ++ pathJoin root "firecracker.socket"
            ++ ("/drives/" ++ (ds.get ⟨k, hk⟩).drive_id)))
          (e, { w with requests := w.requests ++ (ds.take (k + 1)).map (driveReq root) }) := by
  intro ds
  induction ds with
  | nil => intro w k hk; exact absurd hk (by simp)
  | cons d rest ih =>
    intro w k hk hbefore hfail
    cases k with
    | zero =>
      have hr : env.respOk w.requests.length = false := by simpa using hfail
      rcases send_request_cases e env (pathJoin root "firecracker.socket")
          ("/drives/" ++ d.drive_id) d.toJson w with ⟨htrue, _⟩ | ⟨_, hs⟩
      · rw [htrue] at hr; exact Bool.noConfusion hr
      · simp only [Executor.configure_drives, hc, hs]
        simp [driveReq]
    | succ q =>
      have hr0 : env.respOk w.requests.length = true := by
        simpa using hbefore 0 (Nat.succ_pos q)
      rcases send_request_cases e env (pathJoin root "firecracker.socket")
          ("/drives/" ++ d.drive_id) d.toJson w with ⟨_, hs⟩ | ⟨hfalse, _⟩
      · have hlen : ({ w with requests := w.requests ++
            [{ sock := pathJoin root "firecracker.socket",
               path := "/drives/" ++ d.drive_id, body := d.toJson }] } : World).requests.length
            = w.requests.length + 1 := by simp
        have hb2 : ∀ i, i < q → env.respOk (({ w with requests := w.requests ++
            [{ sock := pathJoin root "firecracker.socket",
               path := "/drives/" ++ d.drive_id, body := d.toJson }] } : World).requests.length
            + i) = true := by
          intro i hi
          rw [hlen]
          have harith : w.requests.length + 1 + i = w.requests.length + (i + 1) := by omega
          rw [harith]
          exact hbefore (i + 1) (Nat.succ_lt_succ hi)
        have hf2 : env.respOk (({ w with requests := w.requests ++
            [{ sock := pathJoin root "firecracker.socket",
               path := "/drives/" ++ d.drive_id, body := d.toJson }] } : World).requests.length
            + q) = false := by
          rw [hlen]
          have harith : w.requests.length + 1 + q = w.requests.length + (q + 1) := by omega
          rw [harith]
          exact hfail
        have hrec := ih { w with requests := w.requests ++
            [{ sock := pathJoin root "firecracker.socket",
               path := "/drives/" ++ d.drive_id, body := d.toJson }] }
          q (Nat.lt_of_succ_lt_succ hk) hb2 hf2
        simp only [Executor.configure_drives, hc, hs]
        rw [hrec]
        simp [driveReq, List.append_assoc]
      · rw [hfalse] at hr0; exact Bool.noConfusion hr0

lemma configure_network_first_failure (e : Executor) (env : Env) (root : String)
    (hc : e.chrootPath = some root) :
    ∀ (ns : List NetworkInterface) (w : World) (k : Nat) (hk : k < ns.length),
      (∀ i, i < k → env.respOk (w.requests.length + i) = true) →
      env.respOk (w.requests.length + k) = false →
      e.configure_network env ns w =
        .err (.CommandExecution ("Failed to send request to "
            ++ pathJoin root "firecracker.socket"
            ++ ("/network-interfaces/" ++ (ns.get ⟨k, hk⟩).iface_id)))
          (e, { w with requests := w.requests ++ (ns.take (k + 1)).map (netReq root) }) := by
  intro ns
  induction ns with
  | nil => intro w k hk; exact absurd hk (by simp)
  | cons n rest ih =>
    intro w k hk hbefore hfail
    cases k with
    | zero =>
      have hr : env.respOk w.requests.length = false := by simpa using hfail
      rcases send_request_cases e env (pathJoin root "firecracker.socket")
          ("/network-interfaces/" ++ n.iface_id) n.toJson w with ⟨htrue, _⟩ | ⟨_, hs⟩
      · rw [htrue] at hr; exact Bool.noConfusion hr
      · simp only [Executor.configure_network, hc, hs]
        simp [netReq]
    | succ q =>
      have hr0 : env.respOk w.requests.length = true := by
        simpa using hbefore 0 (Nat.succ_pos q)
      rcases send_request_cases e env (pathJoin root "firecracker.socket")
          ("/network-interfaces/" ++ n.iface_id) n.toJson w with ⟨_, hs⟩ | ⟨hfalse, _⟩
      · have hlen : ({ w with requests := w.requests ++
            [{ sock := pathJoin root "firecracker.socket",
               path := "/network-interfaces/" ++ n.iface_id, body := n.toJson }] } : World).requests.length
            = w.requests.length + 1 := by simp
        have hb2 : ∀ i, i < q → env.respOk (({ w with requests := w.requests ++
            [{ sock := pathJoin root "firecracker.socket",
               path := "/network-interfaces/" ++ n.iface_id, body := n.toJson }] } : World).requests.length
            + i) = true := by
          intro i hi
          rw [hlen]
          have harith : w.requests.length + 1 + i = w.requests.length + (i + 1) := by omega
          rw [harith]
          exact hbefore (i + 1) (Nat.succ_lt_succ hi)
        have hf2 : env.respOk (({ w with requests := w.requests ++
            [{ sock := pathJoin root "firecracker.socket",
               path := "/network-interfaces/" ++ n.iface_id, body := n.toJson }] } : World).requests.length
            + q) = false := by
          rw [hlen]
          have harith : w.requests.length + 1 + q = w.requests.length + (q + 1) := by omega
          rw [harith]
          exact hfail
        have hrec := ih { w with requests := w.requests ++
            [{ sock := pathJoin root "firecracker.socket",
               path := "/network-interfaces/" ++ n.iface_id, body := n.toJson }] }
          q (Nat.lt_of_succ_lt_succ hk) hb2 hf2
        simp only [Executor.configure_network, hc, hs]
        rw [hrec]
        simp [netReq, List.append_assoc]
      · rw [hfalse] at hr0; exact Bool.noConfusion hr0

/-- C7: `configure_drives` and `configure_network` issue one request
per entry in list order, non-transactionally: if the response to entry
k's request is the first failure, the operation returns that entry's
error, the requests for entries 0..k (the failing one included) have
been issued, and no request for any later entry is issued — there is no
rollback. -/
theorem configure_plural_non_transactional (e : Executor) (f : FirecrackerExecutor)
    (env : Env) (hf : e.firecracker = some f) :
    (∀ (ds : List Drive) (w : World) (k : Nat) (hk : k < ds.length),
      (∀ i, i < k → env.respOk (w.requests.length + i) = true) →
      env.respOk (w.requests.length + k) = false →
      e.configure_drives env ds w =
        .err (.CommandExecution ("Failed to send request to "
            ++ pathJoin (pathJoin f.chroot e.id) "firecracker.socket"
            ++ ("/drives/" ++ (ds.get ⟨k, hk⟩).drive_id)))
          (e, { w with requests := w.requests
              ++ (ds.take (k + 1)).map (driveReq (pathJoin f.chroot e.id)) })) ∧
    (∀ (ns : List NetworkInterface) (w : World) (k : Nat) (hk : k < ns.length),
      (∀ i, i < k → env.respOk (w.requests.length + i) = true) →
      env.respOk (w.requests.length + k) = false →
      e.configure_network env ns w =
        .err (.CommandExecution ("Failed to send request to "
            ++ pathJoin (pathJoin f.chroot e.id) "firecracker.socket"
            ++ ("/network-interfaces/" ++ (ns.get ⟨k, hk⟩).iface_id)))
          (e, { w with requests := w.requests
              ++ (ns.take (k + 1)).map (netReq (pathJoin f.chroot e.id)) })) := by
  have hc : e.chrootPath = some (pathJoin f.chroot e.id) := by
    simp [Executor.chrootPath, hf]
  exact ⟨configure_drives_first_failure e env _ hc,
    configure_network_first_failure e env _ hc⟩

/-- Witness for C7: two drives, the second request's response failing,
so exactly the two drive requests are issued and the returned error
names the second drive. -/
theorem configure_plural_non_transactional_witness :
    ({ firecracker := some { chroot := "/srv", exec_binary := "/usr/bin/firecracker" },
       socket_process := none, client := {}, id := "vm" } : Executor).configure_drives
      { spawnOk := true, sockExistsAt := fun _ => true, respOk := fun n => n == 0,
        killOk := true, mkdirOk := true }
      [{ drive_id := "a", path_on_host := "/img/a", is_root_device := true,
         is_read_only := false },
       { drive_id := "b", path_on_host := "/img/b", is_root_device := false,
         is_read_only := true }]
      { dirs := [], files := [], processes := [], requests := [], nextPid := 0 }
    = .err (.CommandExecution ("Failed to send request to "
          ++ pathJoin (pathJoin "/srv" "vm") "firecracker.socket"
          ++ ("/drives/" ++ "b")))
        ({ firecracker := some { chroot := "/srv", exec_binary := "/usr/bin/firecracker" },
           socket_process := none, client := {}, id := "vm" },
         { dirs := [], files := [], processes := [],
           requests :=
             [driveReq (pathJoin "/srv" "vm")
                { drive_id := "a", path_on_host := "/img/a", is_root_device := true,
                  is_read_only := false },
              driveReq (pathJoin "/srv" "vm")
                { drive_id := "b", path_on_host := "/img/b", is_root_device := false,
                  is_read_only := true }],
           nextPid := 0 }) := by
  have h := (configure_plural_non_transactional
    { firecracker := some { chroot := "/srv", exec_binary := "/usr/bin/firecracker" },
      socket_process := none, client := {}, id := "vm" }
    { chroot := "/srv", exec_binary := "/usr/bin/firecracker" }
    { spawnOk := true, sockExistsAt := fun _ => true, respOk := fun n => n == 0,
      killOk := true, mkdirOk := true }
    rfl).1
    [{ drive_id := "a", path_on_host := "/img/a", is_root_device := true,
       is_read_only := false },
     { drive_id := "b", path_on_host := "/img/b", is_root_device := false,
       is_read_only := true }]
    { dirs := [], files := [], processes := [], requests := [], nextPid := 0 }
    1 (by decide)
    (fun i hi => by
      have hi0 : i = 0 := by omega
      subst hi0
      rfl)
    rfl
  simpa using h

/-- The full ordered request sequence `Machine::create` issues on
success: one PUT per (staged) drive in storage order, then the boot
source PUT, then one PUT per interface in list order. -/
def fullCreateReqs (root : String) (storage : List Drive) (kernel : BootSource)
    (interfaces : List NetworkInterface) : List SockRequest :=
  storage.map (fun d => driveReq root (stagedDrive root d))
    ++ [bootReq root kernel] ++ interfaces.map (netReq root)

/-- Master case analysis of the create sequence (with a configured
implementation and a kernel present): either every step succeeds and
the request log is extended by exactly the full ordered sequence, or
exactly one step fails — identified by its own error — and nothing
after it is executed: a pre-spawn failure leaves process table, pid
counter and request log untouched; a health-wait failure leaves the
spawned child running and issues no request; a failing configuration
call is the first failing response, the requests up to and including it
are issued, and none after. -/
lemma createSeq_spec (ex : Executor) (f : FirecrackerExecutor) (kernel : BootSource)
    (env : Env) (storage : List Drive) (interfaces : List NetworkInterface) (w : World)
    (hf : ex.firecracker = some f) :
    (∃ e2 w2, createSeq ex env (some kernel) storage interfaces w = .ok () (e2, w2) ∧
      w2.requests = w.requests
        ++ fullCreateReqs (pathJoin f.chroot ex.id) storage kernel interfaces) ∨
    (pathJoin f.chroot ex.id ∉ w.dirs ∧ env.mkdirOk = false ∧
      createSeq ex env (some kernel) storage interfaces w =
        .err (.Setup "mkdir failed") (ex, w)) ∨
    (∃ j hj w2, createSeq ex env (some kernel) storage interfaces w =
        .err (.Setup ("Failed to copy " ++ (storage.get ⟨j, hj⟩).path_on_host ++ " to "
          ++ pathJoin (pathJoin f.chroot ex.id) (storage.get ⟨j, hj⟩).drive_id)) (ex, w2) ∧
      w2.requests = w.requests ∧ w2.processes = w.processes ∧ w2.nextPid = w.nextPid) ∨
    (∃ w2, createSeq ex env (some kernel) storage interfaces w =
        .err (.Setup ("Failed to copy " ++ kernel.kernel_image_path ++ " to "
          ++ pathJoin (pathJoin f.chroot ex.id) "vmlinux")) (ex, w2) ∧
      w2.requests = w.requests ∧ w2.processes = w.processes ∧ w2.nextPid = w.nextPid) ∨
    (∃ ipath w2, kernel.initrd_path = some ipath ∧
      createSeq ex env (some kernel) storage interfaces w =
        .err (.Setup ("Failed to copy " ++ ipath ++ " to "
          ++ pathJoin (pathJoin f.chroot ex.id) "initrd")) (ex, w2) ∧
      w2.requests = w.requests ∧ w2.processes = w.processes ∧ w2.nextPid = w.nextPid) ∨
    (env.spawnOk = false ∧ ∃ w2,
      createSeq ex env (some kernel) storage interfaces w =
        .err (.Setup "spawn failed") (ex, w2) ∧
      w2.requests = w.requests ∧ w2.processes = w.processes ∧ w2.nextPid = w.nextPid) ∨
    (env.spawnOk = true ∧ (∀ n, n < 10 → env.sockExistsAt n = false) ∧ ∃ w2,
      createSeq ex env (some kernel) storage interfaces w =
        .err (.Configure "Socket didn't start on time") (ex, w2) ∧
      w2.requests = w.requests ∧ w2.processes = w.processes ++ [w.nextPid] ∧
      w2.nextPid = w.nextPid + 1) ∨
    (∃ k hk e2 w2, (∀ i, i < k → env.respOk (w.requests.length + i) = true) ∧
      env.respOk (w.requests.length + k) = false ∧
      createSeq ex env (some kernel) storage interfaces w =
        .err (.Setup ("Failed to send request to "
          ++ pathJoin (pathJoin f.chroot ex.id) "firecracker.socket"
          ++ ("/drives/" ++ (storage.get ⟨k, hk⟩).drive_id))) (e2, w2) ∧
      w2.requests = w.requests
        ++ ((storage.map (stagedDrive (pathJoin f.chroot ex.id))).take (k + 1)).map
          (driveReq (pathJoin f.chroot ex.id))) ∨
    ((∀ i, i < storage.length → env.respOk (w.requests.length + i) = true) ∧
      env.respOk (w.requests.length + storage.length) = false ∧ ∃ e2 w2,
      createSeq ex env (some kernel) storage interfaces w =
        .err (.Setup ("Failed to send request to "
          ++ pathJoin (pathJoin f.chroot ex.id) "firecracker.socket" ++ "/boot-source"))
          (e2, w2) ∧
      w2.requests = (w.requests
        ++ (storage.map (stagedDrive (pathJoin f.chroot ex.id))).map
          (driveReq (pathJoin f.chroot ex.id)))
        ++ [bootReq (pathJoin f.chroot ex.id) kernel]) ∨
    (∃ k hk e2 w2,
      (∀ i, i < storage.length + 1 + k → env.respOk (w.requests.length + i) = true) ∧
      env.respOk (w.requests.length + (storage.length + 1 + k)) = false ∧
      createSeq ex env (some kernel) storage interfaces w =
        .err (.Setup ("Failed to send request to "
          ++ pathJoin (pathJoin f.chroot ex.id) "firecracker.socket"
          ++ ("/network-interfaces/" ++ (interfaces.get ⟨k, hk⟩).iface_id))) (e2, w2) ∧
      w2.requests = ((w.requests
        ++ (storage.map (stagedDrive (pathJoin f.chroot ex.id))).map
          (driveReq (pathJoin f.chroot ex.id)))
        ++ [bootReq (pathJoin f.chroot ex.id) kernel])
        ++ (interfaces.take (k + 1)).map (netReq (pathJoin f.chroot ex.id))) := by
  have hc : ex.chrootPath = some (pathJoin f.chroot ex.id) := by
    simp [Executor.chrootPath, hf]
  rcases create_workspace_cases ex env w _ hc with
    ⟨w1, hcw, hreq1, hfl1, hp1, hn1⟩ | ⟨hdm, hmm, hcw⟩
  case inr.intro.intro =>
    exact .inr (.inl ⟨hdm, hmm,
      by simp [createSeq, hcw, liftE, FirepilotError.ofExecuteError]⟩)
  rcases stageDrives_cases (pathJoin f.chroot ex.id) storage w1 with
    ⟨w2, hsd, hreq2, hx1, hx2, hx3⟩ | ⟨j, hj, w2, hsd, hreq2, hx1, hx2, hx3⟩
  case inr.intro.intro.intro.intro.intro.intro.intro =>
    refine .inr (.inr (.inl ⟨j, hj, w2, ?_, by rw [hreq2, hreq1],
      by rw [hx2, hp1], by rw [hx3, hn1]⟩))
    simp [createSeq, hcw, liftE, hc, hsd]
  rcases fsCopy_cases kernel.kernel_image_path
      (pathJoin (pathJoin f.chroot ex.id) "vmlinux") w2 with
    ⟨w3, hkc, hreq3, hy1, hy2, hy3⟩ | hkc
  case inr =>
    refine .inr (.inr (.inr (.inl ⟨w2, ?_, by rw [hreq2, hreq1],
      by rw [hx2, hp1], by rw [hx3, hn1]⟩)))
    simp [createSeq, hcw, liftE, hc, hsd, hkc]
  rcases stageInitrd_cases (pathJoin f.chroot ex.id) kernel w3 with
    ⟨w4, hsi, hreq4, hz1, hz2, hz3⟩ | ⟨ipath, hip, hsi⟩
  case inr.intro.intro =>
    refine .inr (.inr (.inr (.inr (.inl ⟨ipath, w3, hip, ?_,
      by rw [hreq3, hreq2, hreq1], by rw [hy2, hx2, hp1], by rw [hy3, hx3, hn1]⟩))))
    simp [createSeq, hcw, liftE, hc, hsd, hkc, hsi]
  rcases run_socket_cases ex env w4 _ hc with
    ⟨pid, w5, hrs, hreq5⟩ | ⟨hsF, hrs⟩ | ⟨hsT, hall, hrs⟩
  case inr.inl.intro =>
    refine .inr (.inr (.inr (.inr (.inr (.inl ⟨hsF, w4, ?_,
      by rw [hreq4, hreq3, hreq2, hreq1], by rw [hz2, hy2, hx2, hp1],
      by rw [hz3, hy3, hx3, hn1]⟩)))))
    simp [createSeq, hcw, liftE, hc, hsd, hkc, hsi, hrs,
      FirepilotError.ofExecuteError]
  case inr.inr.intro.intro =>
    refine .inr (.inr (.inr (.inr (.inr (.inr (.inl ⟨hsT, hall,
      { w4 with processes := w4.processes ++ [w4.nextPid], nextPid := w4.nextPid + 1 },
      ?_, by simp [hreq4, hreq3, hreq2, hreq1],
      by simp [hz2, hy2, hx2, hp1, hz3, hy3, hx3, hn1],
      by simp [hz3, hy3, hx3, hn1]⟩))))))
    simp [createSeq, hcw, liftE, hc, hsd, hkc, hsi, hrs,
      FirepilotError.ofExecuteError]
  have hc2 : ({ ex with socket_process := some pid } : Executor).chrootPath
      = some (pathJoin f.chroot ex.id) := by
    simp [Executor.chrootPath, hf]
  have hlen5 : w5.requests.length = w.requests.length := by
    rw [hreq5, hreq4, hreq3, hreq2, hreq1]
  rcases configure_drives_cases { ex with socket_process := some pid } env _ hc2
      (storage.map (stagedDrive (pathJoin f.chroot ex.id))) w5 with
    ⟨hallD, hcd⟩ | ⟨k, hk, hbefD, hfailD, hcd⟩
  case inr.intro.intro.intro.intro =>
    have hkS : k < storage.length := by simpa using hk
    have hgid : ((storage.map (stagedDrive (pathJoin f.chroot ex.id))).get
        ⟨k, hk⟩).drive_id = (storage.get ⟨k, hkS⟩).drive_id := by
      simp [stagedDrive]
    rw [hgid] at hcd
    refine .inr (.inr (.inr (.inr (.inr (.inr (.inr (.inl ⟨k, hkS,
      { ex with socket_process := some pid },
      { w5 with requests := (w5.requests
          ++ ((storage.map (stagedDrive (pathJoin f.chroot ex.id))).take (k + 1)).map
            (driveReq (pathJoin f.chroot ex.id))) },
      ?_, ?_, ?_, by simp [hreq5, hreq4, hreq3, hreq2, hreq1]⟩)))))))
    · intro i hi
      have := hbefD i hi
      rw [hlen5] at this
      exact this
    · have := hfailD
      rw [hlen5] at this
      exact this
    · simp only [createSeq, hcw, liftE, hc, hsd, hkc, hsi, hrs, hcd,
        FirepilotError.ofExecuteError]
  have hlen6 : ({ w5 with requests := (w5.requests
      ++ (storage.map (stagedDrive (pathJoin f.chroot ex.id))).map
        (driveReq (pathJoin f.chroot ex.id))) } : World).requests.length
      = w.requests.length + storage.length := by
    simp [hlen5]
  rcases configure_boot_cases { ex with socket_process := some pid } env kernel
      { w5 with requests := (w5.requests
          ++ (storage.map (stagedDrive (pathJoin f.chroot ex.id))).map
            (driveReq (pathJoin f.chroot ex.id))) } _ hc2 with
    ⟨hrB, hcb⟩ | ⟨hrB, hcb⟩
  case inr.intro =>
    refine .inr (.inr (.inr (.inr (.inr (.inr (.inr (.inr (.inl ⟨?_, ?_,
      { ex with socket_process := some pid },
      { w5 with requests := ((w5.requests
          ++ (storage.map (stagedDrive (pathJoin f.chroot ex.id))).map
            (driveReq (pathJoin f.chroot ex.id)))
          ++ [bootReq (pathJoin f.chroot ex.id) kernel]) },
      ?_, by simp [hreq5, hreq4, hreq3, hreq2, hreq1]⟩))))))))
    · intro i hi
      have := hallD i (by simpa using hi)
      rw [hlen5] at this
      exact this
    · have := hrB
      rw [hlen6] at this
      exact this
    · simp only [createSeq, hcw, liftE, hc, hsd, hkc, hsi, hrs, hcd, hcb,
        FirepilotError.ofExecuteError]
  have hlen7 : ({ w5 with requests := ((w5.requests
      ++ (storage.map (stagedDrive (pathJoin f.chroot ex.id))).map
        (driveReq (pathJoin f.chroot ex.id)))
      ++ [bootReq (pathJoin f.chroot ex.id) kernel]) } : World).requests.length
      = w.requests.length + storage.length + 1 := by
    simp [hlen5]
    omega
  rcases configure_network_cases { ex with socket_process := some pid } env _ hc2
      interfaces
      { w5 with requests := ((w5.requests
          ++ (storage.map (stagedDrive (pathJoin f.chroot ex.id))).map
            (driveReq (pathJoin f.chroot ex.id)))
          ++ [bootReq (pathJoin f.chroot ex.id) kernel]) } with
    ⟨hallN, hcn⟩ | ⟨k, hk, hbefN, hfailN, hcn⟩
  case inr.intro.intro.intro.intro =>
    refine .inr (.inr (.inr (.inr (.inr (.inr (.inr (.inr (.inr ⟨k, hk,
      { ex with socket_process := some pid },
      { w5 with requests := (((w5.requests
          ++ (storage.map (stagedDrive (pathJoin f.chroot ex.id))).map
            (driveReq (pathJoin f.chroot ex.id)))
          ++ [bootReq (pathJoin f.chroot ex.id) kernel])
          ++ (interfaces.take (k + 1)).map (netReq (pathJoin f.chroot ex.id))) },
      ?_, ?_, ?_, by simp [hreq5, hreq4, hreq3, hreq2, hreq1]⟩))))))))
    · intro i hi
      by_cases h1 : i < storage.length
      · have := hallD i (by simpa using h1)
        rw [hlen5] at this
        exact this
      · by_cases h2 : i = storage.length
        · subst h2
          have := hrB
          rw [hlen6] at this
          exact this
        · have hj : i - storage.length - 1 < k := by omega
          have := hbefN (i - storage.length - 1) hj
          rw [hlen7] at this
          have harith : w.requests.length + storage.length + 1
              + (i - storage.length - 1) = w.requests.length + i := by omega
          rw [harith] at this
          exact this
    · have := hfailN
      rw [hlen7] at this
      have harith : w.requests.length + storage.length + 1 + k
          = w.requests.length + (storage.length + 1 + k) := by omega
      rw [harith] at this
      exact this
    · simp only [createSeq, hcw, liftE, hc, hsd, hkc, hsi, hrs, hcd, hcb, hcn,
        FirepilotError.ofExecuteError]
  left
  refine ⟨{ ex with socket_process := some pid },
    { w5 with requests := ((((w5.requests
        ++ (storage.map (stagedDrive (pathJoin f.chroot ex.id))).map
          (driveReq (pathJoin f.chroot ex.id)))
        ++ [bootReq (pathJoin f.chroot ex.id) kernel]))
        ++ interfaces.map (netReq (pathJoin f.chroot ex.id))) }, ?_, ?_⟩
  · simp only [createSeq, hcw, liftE, hc, hsd, hkc, hsi, hrs, hcd, hcb, hcn]
  · simp [fullCreateReqs, hreq5, hreq4, hreq3, hreq2, hreq1, List.map_map,
      Function.comp_def, List.append_assoc]

/-- C6: with executor and kernel present, `Machine::create` applies
configuration over the socket in the fixed order drives, then boot
source, then network interfaces (on success the request log is extended
by exactly that sequence); and every failing step aborts the remainder
and returns its own error immediately, with no step after it executed:
a workspace fault returns `Setup` with state untouched; a failing drive,
kernel or initrd copy returns that copy's `Setup` error with no process
spawned and no request issued; a spawn failure likewise; a health-wait
failure returns the Unhealthy-derived error with the child left running
and no request issued; and a failing configuration call is the first
failing response — the requests up to and including it are issued, its
error (naming its resource) is returned, and no later request is made. -/
theorem create_fixed_order_and_abort (m : Machine) (cfg : Configuration) (ex : Executor)
    (f : FirecrackerExecutor) (kernel : BootSource) (env : Env) (w : World)
    (hex : cfg.executor = some ex) (hf : ex.firecracker = some f)
    (hker : cfg.kernel = some kernel) :
    (∀ m2 w2, m.create env cfg w = .ok () (m2, w2) →
      w2.requests = w.requests
        ++ fullCreateReqs (pathJoin f.chroot ex.id) cfg.storage kernel cfg.interfaces) ∧
    (∀ x m2 w2, m.create env cfg w = .err x (m2, w2) →
      (pathJoin f.chroot ex.id ∉ w.dirs ∧ env.mkdirOk = false ∧
        x = .Setup "mkdir failed" ∧ w2 = w) ∨
      (∃ j hj, x = .Setup ("Failed to copy "
          ++ (cfg.storage.get ⟨j, hj⟩).path_on_host ++ " to "
          ++ pathJoin (pathJoin f.chroot ex.id) (cfg.storage.get ⟨j, hj⟩).drive_id) ∧
        w2.requests = w.requests ∧ w2.processes = w.processes ∧
        w2.nextPid = w.nextPid) ∨
      (x = .Setup ("Failed to copy " ++ kernel.kernel_image_path ++ " to "
          ++ pathJoin (pathJoin f.chroot ex.id) "vmlinux") ∧
        w2.requests = w.requests ∧ w2.processes = w.processes ∧
        w2.nextPid = w.nextPid) ∨
      (∃ ipath, kernel.initrd_path = some ipath ∧
        x = .Setup ("Failed to copy " ++ ipath ++ " to "
          ++ pathJoin (pathJoin f.chroot ex.id) "initrd") ∧
        w2.requests = w.requests ∧ w2.processes = w.processes ∧
        w2.nextPid = w.nextPid) ∨
      (env.spawnOk = false ∧ x = .Setup "spawn failed" ∧
        w2.requests = w.requests ∧ w2.processes = w.processes ∧
        w2.nextPid = w.nextPid) ∨
      (env.spawnOk = true ∧ (∀ n, n < 10 → env.sockExistsAt n = false) ∧
        x = .Configure "Socket didn't start on time" ∧
        w2.requests = w.requests ∧ w2.processes = w.processes ++ [w.nextPid] ∧
        w2.nextPid = w.nextPid + 1) ∨
      (∃ k hk, (∀ i, i < k → env.respOk (w.requests.length + i) = true) ∧
        env.respOk (w.requests.length + k) = false ∧
        x = .Setup ("Failed to send request to "
          ++ pathJoin (pathJoin f.chroot ex.id) "firecracker.socket"
          ++ ("/drives/" ++ (cfg.storage.get ⟨k, hk⟩).drive_id)) ∧
        w2.requests = w.requests
          ++ ((cfg.storage.map (stagedDrive (pathJoin f.chroot ex.id))).take (k + 1)).map
            (driveReq (pathJoin f.chroot ex.id))) ∨
      ((∀ i, i < cfg.storage.length → env.respOk (w.requests.length + i) = true) ∧
        env.respOk (w.requests.length + cfg.storage.length) = false ∧
        x = .Setup ("Failed to send request to "
          ++ pathJoin (pathJoin f.chroot ex.id) "firecracker.socket" ++ "/boot-source") ∧
        w2.requests = (w.requests
          ++ (cfg.storage.map (stagedDrive (pathJoin f.chroot ex.id))).map
            (driveReq (pathJoin f.chroot ex.id)))
          ++ [bootReq (pathJoin f.chroot ex.id) kernel]) ∨
      (∃ k hk, (∀ i, i < cfg.storage.length + 1 + k →
          env.respOk (w.requests.length + i) = true) ∧
        env.respOk (w.requests.length + (cfg.storage.length + 1 + k)) = false ∧
        x = .Setup ("Failed to send request to "
          ++ pathJoin (pathJoin f.chroot ex.id) "firecracker.socket"
          ++ ("/network-interfaces/" ++ (cfg.interfaces.get ⟨k, hk⟩).iface_id)) ∧
        w2.requests = ((w.requests
          ++ (cfg.storage.map (stagedDrive (pathJoin f.chroot ex.id))).map
            (driveReq (pathJoin f.chroot ex.id)))
          ++ [bootReq (pathJoin f.chroot ex.id) kernel])
          ++ (cfg.interfaces.take (k + 1)).map (netReq (pathJoin f.chroot ex.id)))) ∧
    (pathJoin f.chroot ex.id ∉ w.dirs → env.mkdirOk = false →
      m.create env cfg w = .err (.Setup "mkdir failed") ({ executor := ex }, w)) := by
  have hc : ex.chrootPath = some (pathJoin f.chroot ex.id) := by
    simp [Executor.chrootPath, hf]
  refine ⟨?_, ?_, ?_⟩
  · intro m2 w2 h
    simp only [Machine.create, hex, hker] at h
    rcases createSeq_spec ex f kernel env cfg.storage cfg.interfaces w hf with
      ⟨e2, w2x, hrun, hreq⟩ | hrest
    · rw [hrun] at h
      injection h with h1 h2
      obtain rfl : w2 = w2x := congrArg Prod.snd h2.symm
      exact hreq
    · rcases hrest with ⟨hdm, hmm, hrun⟩ | ⟨j, hj, w2x, hrun, hr, hp, hn⟩ |
        ⟨w2x, hrun, hr, hp, hn⟩ | ⟨ipath, w2x, hip, hrun, hr, hp, hn⟩ |
        ⟨hsF, w2x, hrun, hr, hp, hn⟩ | ⟨hsT, hall, w2x, hrun, hr, hp, hn⟩ |
        ⟨k, hk, e2, w2x, hbef, hfail, hrun, hreqx⟩ |
        ⟨hall, hfail, e2, w2x, hrun, hreqx⟩ |
        ⟨k, hk, e2, w2x, hbef, hfail, hrun, hreqx⟩ <;>
      · rw [hrun] at h
        exact Outcome.noConfusion h
  · intro x m2 w2 h
    simp only [Machine.create, hex, hker] at h
    rcases createSeq_spec ex f kernel env cfg.storage cfg.interfaces w hf with
      ⟨e2, w2x, hrun, hreq⟩ | ⟨hdm, hmm, hrun⟩ | ⟨j, hj, w2x, hrun, hr, hp, hn⟩ |
      ⟨w2x, hrun, hr, hp, hn⟩ | ⟨ipath, w2x, hip, hrun, hr, hp, hn⟩ |
      ⟨hsF, w2x, hrun, hr, hp, hn⟩ | ⟨hsT, hall, w2x, hrun, hr, hp, hn⟩ |
      ⟨k, hk, e2, w2x, hbef, hfail, hrun, hreqx⟩ |
      ⟨hall, hfail, e2, w2x, hrun, hreqx⟩ |
      ⟨k, hk, e2, w2x, hbef, hfail, hrun, hreqx⟩
    · rw [hrun] at h
      exact Outcome.noConfusion h
    · rw [hrun] at h
      injection h with h1 h2
      obtain rfl : w = w2 := congrArg Prod.snd h2
      exact .inl ⟨hdm, hmm, h1.symm, rfl⟩
    · rw [hrun] at h
      injection h with h1 h2
      obtain rfl : w2x = w2 := congrArg Prod.snd h2
      exact .inr (.inl ⟨j, hj, h1.symm, hr, hp, hn⟩)
    · rw [hrun] at h
      injection h with h1 h2
      obtain rfl : w2x = w2 := congrArg Prod.snd h2
      exact .inr (.inr (.inl ⟨h1.symm, hr, hp, hn⟩))
    · rw [hrun] at h
      injection h with h1 h2
      obtain rfl : w2x = w2 := congrArg Prod.snd h2
      exact .inr (.inr (.inr (.inl ⟨ipath, hip, h1.symm, hr, hp, hn⟩)))
    · rw [hrun] at h
      injection h with h1 h2
      obtain rfl : w2x = w2 := congrArg Prod.snd h2
      exact .inr (.inr (.inr (.inr (.inl ⟨hsF, h1.symm, hr, hp, hn⟩))))
    · rw [hrun] at h
      injection h with h1 h2
      obtain rfl : w2x = w2 := congrArg Prod.snd h2
      exact .inr (.inr (.inr (.inr (.inr (.inl ⟨hsT, hall, h1.symm, hr, hp, hn⟩)))))
    · rw [hrun] at h
      injection h with h1 h2
      obtain rfl : w2x = w2 := congrArg Prod.snd h2
      exact .inr (.inr (.inr (.inr (.inr (.inr (.inl
        ⟨k, hk, hbef, hfail, h1.symm, hreqx⟩))))))
    · rw [hrun] at h
      injection h with h1 h2
      obtain rfl : w2x = w2 := congrArg Prod.snd h2
      exact .inr (.inr (.inr (.inr (.inr (.inr (.inr (.inl
        ⟨hall, hfail, h1.symm, hreqx⟩)))))))
    · rw [hrun] at h
      injection h with h1 h2
      obtain rfl : w2x = w2 := congrArg Prod.snd h2
      exact .inr (.inr (.inr (.inr (.inr (.inr (.inr (.inr
        ⟨k, hk, hbef, hfail, h1.symm, hreqx⟩)))))))
  · intro hd hm
    have hcw : ex.create_workspace env w
        = .err (.WorkspaceCreation "mkdir failed") (ex, w) := by
      simp [Executor.create_workspace, hc, hd, hm]
    simp [Machine.create, hex, hker, createSeq, hcw, liftE, FirepilotError.ofExecuteError]

/-- Witness for C6: a fresh world with directory creation faulted —
create aborts at workspace creation with a `Setup` error and nothing
else done. -/
theorem create_fixed_order_and_abort_witness :
    Machine.new.create
        { spawnOk := true, sockExistsAt := fun _ => true, respOk := fun _ => true,
          killOk := true, mkdirOk := false }
        { executor := some
            { firecracker := some { chroot := "/srv", exec_binary := "/usr/bin/firecracker" },
              socket_process := none, client := {}, id := "vm" },
          kernel := some
            { kernel_image_path := "/boot/vmlinux", initrd_path := none,
              boot_args := none },
          storage := [], interfaces := [], vm_id := "vm" }
        { dirs := [], files := ["/boot/vmlinux"], processes := [], requests := [],
          nextPid := 0 }
      = .err (.Setup "mkdir failed")
        ({ executor :=
            { firecracker := some { chroot := "/srv", exec_binary := "/usr/bin/firecracker" },
              socket_process := none, client := {}, id := "vm" } },
         { dirs := [], files := ["/boot/vmlinux"], processes := [], requests := [],
           nextPid := 0 }) :=
  (create_fixed_order_and_abort Machine.new
    { executor := some
        { firecracker := some { chroot := "/srv", exec_binary := "/usr/bin/firecracker" },
          socket_process := none, client := {}, id := "vm" },
      kernel := some
        { kernel_image_path := "/boot/vmlinux", initrd_path := none,
          boot_args := none },
      storage := [], interfaces := [], vm_id := "vm" }
    { firecracker := some { chroot := "/srv", exec_binary := "/usr/bin/firecracker" },
      socket_process := none, client := {}, id := "vm" }
    { chroot := "/srv", exec_binary := "/usr/bin/firecracker" }
    { kernel_image_path := "/boot/vmlinux", initrd_path := none, boot_args := none }
    { spawnOk := true, sockExistsAt := fun _ => true, respOk := fun _ => true,
      killOk := true, mkdirOk := false }
    { dirs := [], files := ["/boot/vmlinux"], processes := [], requests := [],
      nextPid := 0 }
    rfl rfl rfl).2.2 (by simp) rfl

/-- C1 counterexample: a configuration with a configured executor but
no boot source makes `Machine::create` panic (the `unwrap` on the
absent kernel) after creating the workspace, instead of returning a
`Setup` error as the claim requires. -/
theorem create_missing_boot_source_panics :
    Machine.new.create
        { spawnOk := true, sockExistsAt := fun _ => true, respOk := fun _ => true,
          killOk := true, mkdirOk := true }
        { executor := some
            { firecracker := some { chroot := "/srv", exec_binary := "/usr/bin/firecracker" },
              socket_process := none, client := {}, id := "vm" },
          kernel := none, storage := [], interfaces := [], vm_id := "vm" }
        { dirs := [], files := [], processes := [], requests := [], nextPid := 0 }
      = .panic "called Option unwrap on a None value"
        ({ executor :=
            { firecracker := some { chroot := "/srv", exec_binary := "/usr/bin/firecracker" },
              socket_process := none, client := {}, id := "vm" } },
         { dirs := ["/srv/vm"], files := [], processes := [], requests := [],
           nextPid := 0 }) := rfl

/-- C1 (amended): a configuration without an executor makes `create`
fail immediately with a `Setup` error and no panic; but a configuration
with a configured executor and no boot source makes `create` panic
(`unwrap` on `None`) once workspace creation has succeeded, rather than
returning an error. -/
theorem create_missing_parts (m : Machine) (cfg : Configuration) (env : Env) (w : World) :
    (cfg.executor = none →
      m.create env cfg w =
        .err (.Setup "No executor was provided in the configuration") (m, w)) ∧
    (∀ ex fc, cfg.executor = some ex → ex.firecracker = some fc → cfg.kernel = none →
      (pathJoin fc.chroot ex.id ∈ w.dirs ∨ env.mkdirOk = true) →
      ∃ w2, m.create env cfg w =
        .panic "called Option unwrap on a None value" ({ executor := ex }, w2)) := by
  constructor
  · intro hex
    simp [Machine.create, hex]
  · intro ex fc hex hfc hker hws
    have hc : ex.chrootPath = some (pathJoin fc.chroot ex.id) := by
      simp [Executor.chrootPath, hfc]
    rcases create_workspace_cases ex env w _ hc with
      ⟨w1, hcw, hreq1, hfx, hpx, hnx⟩ | ⟨hdm, hmm, hcw⟩
    · exact ⟨w1, by simp [Machine.create, hex, hker, createSeq, hcw, liftE]⟩
    · exfalso
      rcases hws with hmem | hmk
      · exact hdm hmem
      · rw [hmk] at hmm
        exact Bool.noConfusion hmm

/-- Witness for C1's amended theorem: a configuration with no executor
yields the `Setup` error, and one with an executor but no kernel
panics. -/
theorem create_missing_parts_witness :
    Machine.new.create
        { spawnOk := true, sockExistsAt := fun _ => true, respOk := fun _ => true,
          killOk := true, mkdirOk := true }
        { executor := none, kernel := none, storage := [], interfaces := [],
          vm_id := "vm" }
        { dirs := [], files := [], processes := [], requests := [], nextPid := 0 }
      = .err (.Setup "No executor was provided in the configuration")
        (Machine.new,
         { dirs := [], files := [], processes := [], requests := [], nextPid := 0 }) ∧
    (∃ w2, Machine.new.create
        { spawnOk := true, sockExistsAt := fun _ => true, respOk := fun _ => true,
          killOk := true, mkdirOk := true }
        { executor := some
            { firecracker := some { chroot := "/srv", exec_binary := "/usr/bin/firecracker" },
              socket_process := none, client := {}, id := "vm" },
          kernel := none, storage := [], interfaces := [], vm_id := "vm" }
        { dirs := [], files := [], processes := [], requests := [], nextPid := 0 }
      = .panic "called Option unwrap on a None value"
        ({ executor :=
            { firecracker := some { chroot := "/srv", exec_binary := "/usr/bin/firecracker" },
              socket_process := none, client := {}, id := "vm" } }, w2)) :=
  ⟨(create_missing_parts Machine.new
      { executor := none, kernel := none, storage := [], interfaces := [], vm_id := "vm" }
      { spawnOk := true, sockExistsAt := fun _ => true, respOk := fun _ => true,
        killOk := true, mkdirOk := true }
      { dirs := [], files := [], processes := [], requests := [], nextPid := 0 }).1 rfl,
   (create_missing_parts Machine.new
      { executor := some
          { firecracker := some { chroot := "/srv", exec_binary := "/usr/bin/firecracker" },
            socket_process := none, client := {}, id := "vm" },
        kernel := none, storage := [], interfaces := [], vm_id := "vm" }
      { spawnOk := true, sockExistsAt := fun _ => true, respOk := fun _ => true,
        killOk := true, mkdirOk := true }
      { dirs := [], files := [], processes := [], requests := [], nextPid := 0 }).2
     { firecracker := some { chroot := "/srv", exec_binary := "/usr/bin/firecracker" },
       socket_process := none, client := {}, id := "vm" }
     { chroot := "/srv", exec_binary := "/usr/bin/firecracker" }
     rfl rfl rfl (Or.inr rfl)⟩

end Firepilot
